import Mathlib

/-!
Verification of the firebirust wire-protocol core against its specification.

All definitions are shallow embeddings of the Rust sources:
bytes are `Nat` values (each `< 256` where it matters), `u32` arithmetic is
`Nat` arithmetic modulo `2 ^ 32`, fallible code returns `Option`.
-/

namespace Firebirust

/-- `2 ^ 32`, the modulus of Rust `u32` arithmetic. -/
def U32 : Nat := 4294967296

/-- Wrapping `u32` addition. -/
def u32add (a b : Nat) : Nat := (a + b) % U32

/-- Wrapping `u32` multiplication. -/
def u32mul (a b : Nat) : Nat := (a * b) % U32

/-- Wrapping `u32` subtraction (operands are `u32` values, i.e. `< 2 ^ 32`). -/
def u32sub (a b : Nat) : Nat := (a + U32 - b % U32) % U32

/-- `utils::ubint32_to_bytes` / the byte image of `bint32_to_bytes(j as i32)`:
the four big-endian bytes of a `u32` value. -/
def ubint32_to_bytes (n : Nat) : List Nat :=
  [n / 16777216 % 256, n / 65536 % 256, n / 256 % 256, n % 256]

/-- `utils::bytes_to_buint32`: big-endian `u32` from the first four bytes. -/
def bytes_to_buint32 (b : List Nat) : Nat :=
  b.getD 0 0 * 16777216 + b.getD 1 0 * 65536 + b.getD 2 0 * 256 + b.getD 3 0

/-- `utils::bytes_to_uint16`: little-endian `u16` from the first two bytes. -/
def bytes_to_uint16 (b : List Nat) : Nat :=
  b.getD 0 0 + b.getD 1 0 * 256

/-- `utils::bytes_to_uint32`: little-endian `u32` from the first four bytes. -/
def bytes_to_uint32 (b : List Nat) : Nat :=
  b.getD 0 0 + b.getD 1 0 * 256 + b.getD 2 0 * 65536 + b.getD 3 0 * 16777216

/-- `utils::int16_to_bytes`: little-endian bytes of a `u16`. -/
def int16_to_bytes (n : Nat) : List Nat :=
  [n % 256, n / 256 % 256]

theorem bytes_to_buint32_ubint32 (n : Nat) (h : n < U32) :
    bytes_to_buint32 (ubint32_to_bytes n) = n := by
  simp only [bytes_to_buint32, ubint32_to_bytes, U32, List.getD_cons_zero,
    List.getD_cons_succ] at *
  omega

/-! ## Date and time codec (`utils.rs`) -/

/-- chrono `NaiveTime`, at the granularity the driver uses: hour, minute,
second and microseconds (chrono stores nanoseconds; the driver constructs
times through `from_hms_micro_opt`, so microseconds suffice). -/
structure NaiveTime where
  hour : Nat
  minute : Nat
  second : Nat
  micro : Nat
deriving DecidableEq, Repr

/-- chrono `NaiveTime::from_hms_micro_opt`: valid for `h < 24`, `m < 60`,
`s < 60` and `micro < 2_000_000` (values `≥ 1_000_000` represent leap
seconds). -/
def from_hms_micro_opt (h m s micro : Nat) : Option NaiveTime :=
  if h < 24 ∧ m < 60 ∧ s < 60 ∧ micro < 2000000 then some ⟨h, m, s, micro⟩ else none

/-- `utils::convert_time`: `(h*3600 + m*60 + s) * 10000 + nanosecond * 10`
as a big-endian `u32` (wrapping, as in a release build). -/
def convert_time (hour minute second nanosecond : Nat) : List Nat :=
  ubint32_to_bytes (((hour * 3600 + minute * 60 + second) * 10000 + nanosecond * 10) % U32)

/-- `utils::bytes_to_naive_time`; the `.unwrap()` panic on an invalid
time is modeled as `none`. -/
def bytes_to_naive_time (b : List Nat) : Option NaiveTime :=
  let n := bytes_to_buint32 b
  let s := n / 10000
  let m := s / 60
  let h := m / 60
  from_hms_micro_opt h (m % 60) (s % 60) (n % 10000 * 100000)

/-- chrono `NaiveDate` (years in this development are always positive). -/
structure NaiveDate where
  year : Nat
  month : Nat
  day : Nat
deriving DecidableEq, Repr

/-- Gregorian leap-year rule (as in chrono). -/
def is_leap_year (y : Nat) : Bool := y % 4 == 0 && (y % 100 != 0 || y % 400 == 0)

/-- Number of days of a month in the Gregorian calendar. -/
def days_in_month (y m : Nat) : Nat :=
  if m = 2 then (if is_leap_year y then 29 else 28)
  else if m = 4 ∨ m = 6 ∨ m = 9 ∨ m = 11 then 30
  else 31

/-- chrono `NaiveDate::from_ymd_opt`. -/
def from_ymd_opt (y m d : Nat) : Option NaiveDate :=
  if 1 ≤ m ∧ m ≤ 12 ∧ 1 ≤ d ∧ d ≤ days_in_month y m then some ⟨y, m, d⟩ else none

/-- `utils::convert_date`: proleptic Gregorian day count with offset
`+678882`, emitted as four big-endian bytes (`u32` wrapping arithmetic). -/
def convert_date (year month day : Nat) : List Nat :=
  let i := month + 9
  let jy := u32sub (u32add year (i / 12)) 1
  let jm := i % 12
  let c := jy / 100
  let j :=
    u32sub
      (u32add
        (u32add (u32add (u32mul 146097 c / 4) (u32mul 1461 (u32sub jy (u32mul 100 c)) / 4))
          (u32add (u32mul 153 jm) 2 / 5))
        day)
      678882
  ubint32_to_bytes j

/-- `utils::bytes_to_naive_date`: the century/1461/153 reduction; the
`.unwrap()` panic on an invalid date is modeled as `none`. -/
def bytes_to_naive_date (b : List Nat) : Option NaiveDate :=
  let nday := u32add (bytes_to_buint32 b) 678882
  let century := u32sub (u32mul 4 nday) 1 / 146097
  let nday1 := u32sub (u32sub (u32mul 4 nday) 1) (u32mul 146097 century)
  let day := nday1 / 4
  let nday2 := u32add (u32mul 4 day) 3 / 1461
  let day1 := u32sub (u32add (u32mul 4 day) 3) (u32mul 1461 nday2)
  let day2 := u32add day1 4 / 4
  let month := u32sub (u32mul 5 day2) 3 / 153
  let day3 := u32sub (u32sub (u32mul 5 day2) 3) (u32mul 153 month)
  let day4 := u32add day3 5 / 5
  let year := u32add (u32mul 100 century) nday2
  if month < 10 then from_ymd_opt year (month + 3) day4
  else from_ymd_opt (year + 1) (month - 9) day4

theorem u32sub_lt (a b : Nat) : u32sub a b < U32 := by
  simp only [u32sub, U32]; omega

/-! ### Claim C5: time codec -/

/-- C5 counterexample input: at one microsecond past midnight
(`ns = 1000`), the decoded time is `00:00:01.000000`, one full second,
not `00:00:00.000001` as the round-trip claim requires. -/
theorem c5_time_roundtrip_fails :
    bytes_to_naive_time (convert_time 0 0 0 1000) = some ⟨0, 0, 1, 0⟩ ∧
      bytes_to_naive_time (convert_time 0 0 0 1000) ≠ some ⟨0, 0, 0, 1⟩ := by
  constructor <;> decide

/-- C5 (amended): the time round trip holds exactly at whole-second
resolution: for every valid `h:m:s` with zero nanoseconds, decoding the
wire encoding returns the original time. -/
theorem c5_time_roundtrip_whole_seconds (h m s : Nat)
    (hh : h < 24) (hm : m < 60) (hs : s < 60) :
    bytes_to_naive_time (convert_time h m s 0) = some ⟨h, m, s, 0⟩ := by
  have hlt : (h * 3600 + m * 60 + s) * 10000 + 0 * 10 < U32 := by
    simp only [U32]; omega
  simp only [bytes_to_naive_time, convert_time, Nat.mod_eq_of_lt hlt,
    bytes_to_buint32_ubint32 _ hlt, from_hms_micro_opt]
  rw [if_pos]
  · simp only [Option.some.injEq, NaiveTime.mk.injEq]
    refine ⟨?_, ?_, ?_, ?_⟩ <;> omega
  · refine ⟨?_, ?_, ?_, ?_⟩ <;> omega

/-- C5 witness: the whole-second round trip at 12:34:56. -/
theorem c5_time_roundtrip_whole_seconds_witness :
    bytes_to_naive_time (convert_time 12 34 56 0) = some ⟨12, 34, 56, 0⟩ :=
  c5_time_roundtrip_whole_seconds 12 34 56 (by decide) (by decide) (by decide)

/-! ### Claim C6: date codec -/

set_option maxHeartbeats 3200000 in
set_option maxRecDepth 4000 in
/-- C6: for every calendar date from 1900-01-01 through 2099-12-31,
decoding the wire encoding returns the original date. -/
theorem c6_date_roundtrip (y m d : Nat) (hy1 : 1900 ≤ y) (hy2 : y ≤ 2099)
    (hm1 : 1 ≤ m) (hm2 : m ≤ 12) (hd1 : 1 ≤ d) (hd2 : d ≤ days_in_month y m) :
    bytes_to_naive_date (convert_date y m d) = some ⟨y, m, d⟩ := by
  -- Distill the day-count correlations out of `days_in_month`.
  have hdm := hd2
  simp only [days_in_month, is_leap_year, Bool.and_eq_true, beq_iff_eq, Bool.or_eq_true,
    bne_iff_ne, ne_eq] at hdm
  have hd31 : d ≤ 31 := by split_ifs at hdm <;> omega
  have h30 : m = 4 ∨ m = 6 ∨ m = 9 ∨ m = 11 → d ≤ 30 := by
    intro hm; split_ifs at hdm <;> omega
  have hfeb : m = 2 → d ≤ 29 := by intro hm; split_ifs at hdm <;> omega
  have hfebn : m = 2 → ¬(y % 4 = 0 ∧ (¬y % 100 = 0 ∨ y % 400 = 0)) → d ≤ 28 := by
    intro hm hnl; split_ifs at hdm <;> tauto
  clear hdm
  simp only [convert_date, bytes_to_naive_date]
  rw [bytes_to_buint32_ubint32 _ (u32sub_lt _ _)]
  -- Encode side: pin every intermediate quantity.
  obtain ⟨q, hq⟩ : ∃ q, (m + 9) / 12 = q := ⟨_, rfl⟩
  rw [hq]
  have hqf : (q = 0 ∧ m ≤ 2) ∨ (q = 1 ∧ 3 ≤ m) := by omega
  obtain ⟨jm, hjm⟩ : ∃ jm, (m + 9) % 12 = jm := ⟨_, rfl⟩
  rw [hjm]
  have hjmf : jm + 12 * q = m + 9 ∧ jm ≤ 11 := by omega
  obtain ⟨jy, hjy⟩ : ∃ jy, u32sub (u32add y q) 1 = jy := ⟨_, rfl⟩
  rw [hjy]
  have hjyf : jy = y + q - 1 := by simp only [u32sub, u32add, U32] at hjy; omega
  obtain ⟨c, hc⟩ : ∃ c, jy / 100 = c := ⟨_, rfl⟩
  rw [hc]
  have hcf : 18 ≤ c ∧ c ≤ 21 := by omega
  obtain ⟨rr, hrr⟩ : ∃ rr, u32sub jy (u32mul 100 c) = rr := ⟨_, rfl⟩
  rw [hrr]
  have hrrf : 100 * c + rr = jy ∧ rr ≤ 99 := by
    simp only [u32sub, u32mul, U32] at hrr; omega
  obtain ⟨t1, ht1⟩ : ∃ t1, u32mul 146097 c / 4 = t1 := ⟨_, rfl⟩
  rw [ht1]
  have ht1f : t1 = 36524 * c + c / 4 := by simp only [u32mul, U32] at ht1; omega
  obtain ⟨t2, ht2⟩ : ∃ t2, u32mul 1461 rr / 4 = t2 := ⟨_, rfl⟩
  rw [ht2]
  have ht2f : t2 = 365 * rr + rr / 4 := by simp only [u32mul, U32] at ht2; omega
  obtain ⟨t3, ht3⟩ : ∃ t3, u32add (u32mul 153 jm) 2 / 5 = t3 := ⟨_, rfl⟩
  rw [ht3]
  have ht3f : t3 = 30 * jm + (3 * jm + 2) / 5 := by
    simp only [u32add, u32mul, U32] at ht3; omega
  obtain ⟨j, hj⟩ : ∃ j, u32sub (u32add (u32add (u32add t1 t2) t3) d) 678882 = j := ⟨_, rfl⟩
  rw [hj]
  have hub : t1 + t2 + t3 + d ≤ 803540 := by omega
  have hlb : 693596 ≤ t1 + t2 + t3 + d := by omega
  have hjf : j + 678882 = t1 + t2 + t3 + d ∧ j < 200000 := by
    simp only [u32sub, u32add, U32] at hj; omega
  -- Distilled leap correlation: a February 29 forces a leap year.
  have hleap29 : m = 2 → 29 ≤ d → (y % 4 = 0 ∧ (y % 100 = 0 → y % 400 = 0)) := by
    intro hmm h29
    by_contra hnl
    have hd28 : d ≤ 28 :=
      hfebn hmm fun h => hnl ⟨h.1, fun h100 => h.2.resolve_left (not_not_intro h100)⟩
    omega
  clear hfebn hq hjm hjy hc hrr ht1 ht2 ht3 hj
  -- Decode side: pin every intermediate quantity of the reduction.
  obtain ⟨a, ha⟩ : ∃ a, u32add j 678882 = a := ⟨_, rfl⟩
  rw [ha]
  have haf : a = t1 + t2 + t3 + d := by simp only [u32add, U32] at ha; omega
  have hab : a ≤ 803540 := by omega
  clear ha hjf hub hlb
  obtain ⟨x, hx⟩ : ∃ x, u32sub (u32mul 4 a) 1 = x := ⟨_, rfl⟩
  rw [hx]
  have hxf : x = 4 * a - 1 := by simp only [u32sub, u32mul, U32] at hx; omega
  clear hx
  have hkey : m = 2 → 29 ≤ d → rr = 99 → c % 4 = 3 := by omega
  have hkey2 : m = 2 → 29 ≤ d → rr % 4 = 3 := by omega
  obtain ⟨cen, hcen⟩ : ∃ cen, x / 146097 = cen := ⟨_, rfl⟩
  rw [hcen]
  have hlow : 146097 * c ≤ x := by omega
  have hhigh : x < 146097 * (c + 1) := by omega
  have hcenf : cen = c := by omega
  rw [hcenf]
  clear hcen hcenf hkey hhigh
  obtain ⟨n1, hn1⟩ : ∃ n1, u32sub x (u32mul 146097 c) = n1 := ⟨_, rfl⟩
  rw [hn1]
  have hn1f : n1 = 4 * a - 1 - 146097 * c := by
    simp only [u32sub, u32mul, U32] at hn1; omega
  clear hn1
  obtain ⟨dd, hdd⟩ : ∃ dd, n1 / 4 = dd := ⟨_, rfl⟩
  rw [hdd]
  have hddf : dd = t2 + t3 + d - 1 := by omega
  have hddb : dd ≤ 40000 := by omega
  clear hdd hn1f hlow hxf hab haf ht1f
  obtain ⟨y2, hy2⟩ : ∃ y2, u32add (u32mul 4 dd) 3 / 1461 = y2 := ⟨_, rfl⟩
  rw [hy2]
  have hy2w : y2 = (4 * dd + 3) / 1461 := by simp only [u32add, u32mul, U32] at hy2; omega
  have hy2f : y2 = rr := by omega
  rw [hy2f]
  clear hy2 hy2w hy2f hkey2 hleap29
  obtain ⟨n3, hn3⟩ : ∃ n3, u32sub (u32add (u32mul 4 dd) 3) (u32mul 1461 rr) = n3 := ⟨_, rfl⟩
  rw [hn3]
  have hn3f : n3 = 4 * dd + 3 - 1461 * rr := by
    simp only [u32sub, u32add, u32mul, U32] at hn3; omega
  clear hn3
  obtain ⟨b, hb⟩ : ∃ b, u32add n3 4 / 4 = b := ⟨_, rfl⟩
  rw [hb]
  have hn3b : n3 ≤ 200000 := by omega
  have hbw : b = (n3 + 4) / 4 := by simp only [u32add, U32] at hb; omega
  have hbf : b = t3 + d := by omega
  have hbb : b ≤ 400 := by omega
  clear hb hbw hn3b hn3f hddf hddb ht2f
  obtain ⟨mo, hmo⟩ : ∃ mo, u32sub (u32mul 5 b) 3 / 153 = mo := ⟨_, rfl⟩
  rw [hmo]
  have hmow : mo = (5 * b - 3) / 153 := by simp only [u32sub, u32mul, U32] at hmo; omega
  clear hmo
  have hmof : mo = jm := by
    obtain ⟨hjm1, hjm2⟩ := hjmf
    interval_cases jm <;> omega
  rw [hmof]
  clear hmow
  obtain ⟨n4, hn4⟩ : ∃ n4, u32sub (u32sub (u32mul 5 b) 3) (u32mul 153 jm) = n4 := ⟨_, rfl⟩
  rw [hn4]
  have hn4f : n4 = 5 * b - 3 - 153 * jm := by
    simp only [u32sub, u32mul, U32] at hn4; omega
  clear hn4
  obtain ⟨d4, hd4⟩ : ∃ d4, u32add n4 5 / 5 = d4 := ⟨_, rfl⟩
  rw [hd4]
  have hn4b : n4 ≤ 2000 := by omega
  have hd4w : d4 = (n4 + 5) / 5 := by simp only [u32add, U32] at hd4; omega
  have hd4f : d4 = d := by omega
  clear hd4 hn4f hbf ht3f
  obtain ⟨yr, hyr⟩ : ∃ yr, u32add (u32mul 100 c) rr = yr := ⟨_, rfl⟩
  rw [hyr]
  have hyrf : yr = jy := by simp only [u32add, u32mul, U32] at hyr; omega
  rw [hd4f, hyrf]
  split_ifs with hlt10
  · -- `jm < 10`: the March–December branch, `m = jm + 3`, year unchanged.
    have hm3 : jm + 3 = m := by omega
    have hyy : jy = y := by omega
    rw [hm3, hyy]
    simp only [from_ymd_opt]
    rw [if_pos ⟨hm1, hm2, hd1, hd2⟩]
  · -- `jm ≥ 10`: the January–February branch, `m = jm - 9`, year restored.
    have hm9 : jm - 9 = m := by omega
    have hyy : jy + 1 = y := by omega
    rw [hm9, hyy]
    simp only [from_ymd_opt]
    rw [if_pos ⟨hm1, hm2, hd1, hd2⟩]

/-- C6 witness: the round trip at 1967-08-11. -/
theorem c6_date_roundtrip_witness :
    bytes_to_naive_date (convert_date 1967 8 11) = some ⟨1967, 8, 11⟩ :=
  c6_date_roundtrip 1967 8 11 (by decide) (by decide) (by decide) (by decide)
    (by decide) (by decide)

/-! ## Crypt translators (`crypt_translater.rs`) -/

/-- Swap the entries of an array-as-function at positions `i` and `j`
(`let tmp = s[i]; s[i] = s[j]; s[j] = tmp`). -/
def swapFn (s : Nat → Nat) (i j : Nat) : Nat → Nat :=
  fun p => if p = i then s j else if p = j then s i else s p

/-- `Arc4` cipher state: the 256-byte table (as a function on indices) and
the two PRGA cursors `x`, `y`. -/
structure Arc4State where
  s : Nat → Nat
  x : Nat
  y : Nat

/-- One iteration of the RC4 key schedule (the loop body of `Arc4::new`). -/
def ksa_step (key : List Nat) (acc : (Nat → Nat) × Nat × Nat) (i : Nat) :
    (Nat → Nat) × Nat × Nat :=
  let index2 := (key.getD acc.2.1 0 + acc.1 i + acc.2.2) % 256
  (swapFn acc.1 i index2, (acc.2.1 + 1) % key.length, index2)

/-- `Arc4::new`: identity table, then 256 key-schedule swaps. -/
def arc4_new (key : List Nat) : Arc4State :=
  let r := (List.range 256).foldl (ksa_step key) (fun p => p, 0, 0)
  ⟨r.1, 0, 0⟩

/-- One PRGA step of `Arc4::translate`: advance `x` and `y`, swap the two
table entries, and emit the keystream byte `s[(s[x] + s[y]) % 256]`. -/
def prga (a : Arc4State) : Arc4State × Nat :=
  let x := (a.x + 1) % 256
  let y := (a.y + a.s x) % 256
  let s := swapFn a.s x y
  (⟨s, x, y⟩, s ((s x + s y) % 256))

/-- `Arc4::translate`: XOR each input byte with the next keystream byte. -/
def arc4_translate : Arc4State → List Nat → Arc4State × List Nat
  | a, [] => (a, [])
  | a, p :: rest =>
    ((arc4_translate (prga a).1 rest).1,
      (p ^^^ (prga a).2) :: (arc4_translate (prga a).1 rest).2)

/-- The `i`-th keystream byte Arc4 generates from state `a`. -/
def arc4_ks (a : Arc4State) : Nat → Nat
  | 0 => (prga a).2
  | i + 1 => arc4_ks (prga a).1 i

/-- Rust `u32::rotate_left`. -/
def rotl32 (x n : Nat) : Nat := x * 2 ^ n % U32 + x / 2 ^ (32 - n)

/-- `quaterround_u32` from `crypt_translater.rs`. -/
def quaterround_u32 (st : List Nat) (i j k l : Nat) : List Nat :=
  let a := st.getD i 0
  let b := st.getD j 0
  let c := st.getD k 0
  let d := st.getD l 0
  let a1 := (a + b) % U32
  let d1 := rotl32 (d ^^^ a1) 16
  let c1 := (c + d1) % U32
  let b1 := rotl32 (b ^^^ c1) 12
  let a2 := (a1 + b1) % U32
  let d2 := rotl32 (d1 ^^^ a2) 8
  let c2 := (c1 + d2) % U32
  let b2 := rotl32 (b1 ^^^ c2) 7
  (((st.set i a2).set j b2).set k c2).set l d2

/-- `ChaCha` cipher state: 8 key words, 2 or 3 nonce words, 64-bit block
counter, current keystream block and position within it. -/
structure ChaChaState where
  key : List Nat
  nonce : List Nat
  counter : Nat
  block : List Nat
  block_pos : Nat

/-- Little-endian `u32` from four bytes (`u32::from_le_bytes` over
`chunks_exact(4)`). -/
def chacha_words : List Nat → List Nat
  | a :: b :: c :: d :: rest => (a + b * 256 + c * 65536 + d * 16777216) :: chacha_words rest
  | _ => []

/-- Little-endian bytes of a `u32` word (`u32::to_le_bytes`). -/
def u32_to_le_bytes (n : Nat) : List Nat :=
  [n % 256, n / 256 % 256, n / 65536 % 256, n / 16777216 % 256]

/-- `ChaCha::to_state`: constants, key, then counter/nonce layout
depending on the nonce length. -/
def chacha_to_state (key nonce : List Nat) (counter : Nat) : List Nat :=
  [0x61707865, 0x3320646e, 0x79622d32, 0x6b206574] ++ key ++
    (if nonce.length = 3 then counter % U32 :: nonce
     else counter % U32 :: counter / U32 % U32 :: nonce)

/-- One double round (the loop body of `set_chacha20_round_block`). -/
def chacha_double_round (x : List Nat) : List Nat :=
  let x1 := quaterround_u32 x 0 4 8 12
  let x2 := quaterround_u32 x1 1 5 9 13
  let x3 := quaterround_u32 x2 2 6 10 14
  let x4 := quaterround_u32 x3 3 7 11 15
  let x5 := quaterround_u32 x4 0 5 10 15
  let x6 := quaterround_u32 x5 1 6 11 12
  let x7 := quaterround_u32 x6 2 7 8 13
  quaterround_u32 x7 3 4 9 14

/-- `set_chacha20_round_block`: 10 double rounds, add the input state,
serialize little-endian. -/
def chacha_block (key nonce : List Nat) (counter : Nat) : List Nat :=
  let st := chacha_to_state key nonce counter
  let x := chacha_double_round^[10] st
  (List.zipWith (fun a b => (a + b) % U32) x st).bind u32_to_le_bytes

/-- `ChaCha::new`: the two size panics are modeled as `none`. -/
def chacha_new (key nonce : List Nat) : Option ChaChaState :=
  if key.length ≠ 32 then none
  else if nonce.length ≠ 8 ∧ nonce.length ≠ 12 then none
  else
    let keyw := chacha_words key
    let noncew := chacha_words nonce
    if keyw.length ≠ 8 then none
    else if noncew.length ≠ 2 ∧ noncew.length ≠ 3 then none
    else some ⟨keyw, noncew, 0, chacha_block keyw noncew 0, 0⟩

/-- Advance a ChaCha state by one byte (the per-byte tail of
`ChaCha::translate`: bump `block_pos`, refill the block when it is
exhausted). -/
def chacha_step (c : ChaChaState) : ChaChaState :=
  if c.block.length = c.block_pos + 1 then
    { c with counter := (c.counter + 1) % 18446744073709551616,
             block := chacha_block c.key c.nonce ((c.counter + 1) % 18446744073709551616),
             block_pos := 0 }
  else { c with block_pos := c.block_pos + 1 }

/-- `ChaCha::translate`: XOR each input byte with `block[block_pos]`. -/
def chacha_translate : ChaChaState → List Nat → ChaChaState × List Nat
  | c, [] => (c, [])
  | c, p :: rest =>
    ((chacha_translate (chacha_step c) rest).1,
      (p ^^^ c.block.getD c.block_pos 0) :: (chacha_translate (chacha_step c) rest).2)

/-! ### Claim C3: keystream round trip -/

theorem arc4_translate_involution (b : List Nat) :
    ∀ a : Arc4State, (arc4_translate a (arc4_translate a b).2).2 = b := by
  induction b with
  | nil => intro a; simp [arc4_translate]
  | cons p rest ih =>
    intro a
    simp only [arc4_translate]
    rw [Nat.xor_assoc, Nat.xor_self, Nat.xor_zero, ih (prga a).1]

theorem chacha_translate_involution (b : List Nat) :
    ∀ c : ChaChaState, (chacha_translate c (chacha_translate c b).2).2 = b := by
  induction b with
  | nil => intro c; simp [chacha_translate]
  | cons p rest ih =>
    intro c
    simp only [chacha_translate]
    rw [Nat.xor_assoc, Nat.xor_self, Nat.xor_zero, ih (chacha_step c)]

/-- C3: translating a byte sequence with one freshly constructed
translator and translating the result with a second translator built from
the same key material returns the original sequence, for Arc4 (any
non-empty key) and for ChaCha (any key/nonce the constructor accepts). -/
theorem c3_translate_roundtrip :
    (∀ key : List Nat, key ≠ [] → ∀ b : List Nat,
      (arc4_translate (arc4_new key) (arc4_translate (arc4_new key) b).2).2 = b) ∧
    (∀ key nonce : List Nat, ∀ st : ChaChaState, chacha_new key nonce = some st →
      ∀ b : List Nat, (chacha_translate st (chacha_translate st b).2).2 = b) := by
  exact ⟨fun key _ b => arc4_translate_involution b (arc4_new key),
    fun _ _ st _ b => chacha_translate_involution b st⟩

set_option maxRecDepth 100000 in
/-- C3 witness: the Arc4 round trip for key `"a key"` on `"plain text"`,
whose first pass moreover produces the ciphertext documented in the
source's test, and the ChaCha round trip for the 32-byte key
`00..1f` with a 12-byte zero nonce. -/
theorem c3_translate_roundtrip_witness :
    ([0x61, 0x20, 0x6b, 0x65, 0x79] : List Nat) ≠ [] ∧
      (arc4_translate (arc4_new [0x61, 0x20, 0x6b, 0x65, 0x79])
        (arc4_translate (arc4_new [0x61, 0x20, 0x6b, 0x65, 0x79])
          [0x70, 0x6c, 0x61, 0x69, 0x6e, 0x20, 0x74, 0x65, 0x78, 0x74]).2).2 =
        [0x70, 0x6c, 0x61, 0x69, 0x6e, 0x20, 0x74, 0x65, 0x78, 0x74] ∧
      (arc4_translate (arc4_new [0x61, 0x20, 0x6b, 0x65, 0x79])
          [0x70, 0x6c, 0x61, 0x69, 0x6e, 0x20, 0x74, 0x65, 0x78, 0x74]).2 =
        [0x4b, 0x4b, 0xdc, 0x65, 0x02, 0xb3, 0x08, 0x17, 0x48, 0x82] := by
  refine ⟨by decide, c3_translate_roundtrip.1 _ (by decide) _, by decide⟩

/-! ### Claim C10: the Arc4 state is a permutation -/

theorem swapFn_eq_comp (s : Nat → Nat) (i j : Nat) :
    swapFn s i j = s ∘ (Equiv.swap i j) := by
  funext p
  simp only [swapFn, Function.comp_apply, Equiv.swap_apply_def]
  split_ifs <;> rfl

theorem swap_bijOn (i j : Nat) (hi : i < 256) (hj : j < 256) :
    Set.BijOn (Equiv.swap i j) (Set.Iio 256) (Set.Iio 256) := by
  refine ⟨fun p hp => ?_, (Equiv.injective _).injOn, fun v hv => ?_⟩
  · simp only [Set.mem_Iio] at *
    rw [Equiv.swap_apply_def]
    split_ifs <;> assumption
  · refine ⟨Equiv.swap i j v, ?_, Equiv.swap_apply_self i j v⟩
    simp only [Set.mem_Iio] at *
    rw [Equiv.swap_apply_def]
    split_ifs <;> assumption

theorem bijOn_swapFn (s : Nat → Nat) (i j : Nat) (hi : i < 256) (hj : j < 256)
    (hs : Set.BijOn s (Set.Iio 256) (Set.Iio 256)) :
    Set.BijOn (swapFn s i j) (Set.Iio 256) (Set.Iio 256) := by
  rw [swapFn_eq_comp]
  exact hs.comp (swap_bijOn i j hi hj)

theorem prga_state_bijOn (a : Arc4State)
    (hs : Set.BijOn a.s (Set.Iio 256) (Set.Iio 256)) :
    Set.BijOn (prga a).1.s (Set.Iio 256) (Set.Iio 256) := by
  exact bijOn_swapFn a.s _ _ (Nat.mod_lt _ (by norm_num)) (Nat.mod_lt _ (by norm_num)) hs

theorem arc4_translate_state_bijOn (b : List Nat) :
    ∀ a : Arc4State, Set.BijOn a.s (Set.Iio 256) (Set.Iio 256) →
      Set.BijOn (arc4_translate a b).1.s (Set.Iio 256) (Set.Iio 256) := by
  induction b with
  | nil => intro a h; exact h
  | cons p rest ih =>
    intro a h
    exact ih (prga a).1 (prga_state_bijOn a h)

theorem ksa_foldl_bijOn (key : List Nat) (l : List Nat) :
    ∀ acc : (Nat → Nat) × Nat × Nat, (∀ i ∈ l, i < 256) →
      Set.BijOn acc.1 (Set.Iio 256) (Set.Iio 256) →
      Set.BijOn (l.foldl (ksa_step key) acc).1 (Set.Iio 256) (Set.Iio 256) := by
  induction l with
  | nil => intro acc _ h; exact h
  | cons i rest ih =>
    intro acc hmem h
    simp only [List.foldl_cons]
    exact ih (ksa_step key acc i) (fun j hj => hmem j (List.mem_cons_of_mem i hj))
      (bijOn_swapFn acc.1 i _ (hmem i (List.mem_cons_self i rest))
        (Nat.mod_lt _ (by norm_num)) h)

theorem arc4_new_state_bijOn (key : List Nat) :
    Set.BijOn (arc4_new key).s (Set.Iio 256) (Set.Iio 256) := by
  refine ksa_foldl_bijOn key (List.range 256) (fun p => p, 0, 0)
    (fun i hi => List.mem_range.mp hi) ?_
  simpa using Set.bijOn_id (Set.Iio 256)

theorem arc4_ks_lt (i : Nat) :
    ∀ a : Arc4State, Set.BijOn a.s (Set.Iio 256) (Set.Iio 256) → arc4_ks a i < 256 := by
  induction i with
  | zero =>
    intro a h
    have h2 := prga_state_bijOn a h
    have h3 : arc4_ks a 0 =
        (prga a).1.s (((prga a).1.s (prga a).1.x + (prga a).1.s (prga a).1.y) % 256) := rfl
    rw [h3]
    exact Set.mem_Iio.mp (h2.mapsTo (Set.mem_Iio.mpr (Nat.mod_lt _ (by norm_num))))
  | succ n ih =>
    intro a h
    exact ih (prga a).1 (prga_state_bijOn a h)

theorem xor_bijOn_bytes (k : Nat) (hk : k < 256) :
    Set.BijOn (fun p => p ^^^ k) (Set.Iio 256) (Set.Iio 256) := by
  have hxlt : ∀ p : Nat, p < 256 → p ^^^ k < 256 := by
    intro p hp
    have hp8 : p < 2 ^ 8 := hp
    have hk8 : k < 2 ^ 8 := hk
    exact Nat.xor_lt_two_pow hp8 hk8
  refine ⟨fun p hp => Set.mem_Iio.mpr (hxlt p (Set.mem_Iio.mp hp)),
    fun p _ q _ hpq => ?_, fun v hv => ⟨v ^^^ k, ?_, Nat.xor_cancel_right k v⟩⟩
  · have := congrArg (fun z => z ^^^ k) hpq
    simpa only [Nat.xor_cancel_right] using this
  · exact Set.mem_Iio.mpr (hxlt v (Set.mem_Iio.mp hv))

/-- C10: for every non-empty key, the Arc4 table is a permutation of the
byte range after construction, every call to `translate` preserves this
invariant, and the translation at each position — XOR with that
position's keystream byte — is a bijection on bytes. -/
theorem c10_arc4_state_permutation :
    (∀ key : List Nat, key ≠ [] →
      Set.BijOn (arc4_new key).s (Set.Iio 256) (Set.Iio 256)) ∧
    (∀ (a : Arc4State) (b : List Nat), Set.BijOn a.s (Set.Iio 256) (Set.Iio 256) →
      Set.BijOn (arc4_translate a b).1.s (Set.Iio 256) (Set.Iio 256)) ∧
    (∀ (a : Arc4State) (i : Nat), Set.BijOn a.s (Set.Iio 256) (Set.Iio 256) →
      Set.BijOn (fun p => p ^^^ arc4_ks a i) (Set.Iio 256) (Set.Iio 256)) :=
  ⟨fun key _ => arc4_new_state_bijOn key,
    fun a b h => arc4_translate_state_bijOn b a h,
    fun a i h => xor_bijOn_bytes (arc4_ks a i) (arc4_ks_lt i a h)⟩

/-- C10 witness: the invariant instantiated for the key `"a key"`,
a two-byte translation, and the first keystream position. -/
theorem c10_arc4_state_permutation_witness :
    ([0x61, 0x20, 0x6b, 0x65, 0x79] : List Nat) ≠ [] ∧
      Set.BijOn (arc4_new [0x61, 0x20, 0x6b, 0x65, 0x79]).s (Set.Iio 256) (Set.Iio 256) ∧
      Set.BijOn (arc4_translate (arc4_new [0x61, 0x20, 0x6b, 0x65, 0x79]) [1, 2]).1.s
        (Set.Iio 256) (Set.Iio 256) ∧
      Set.BijOn (fun p => p ^^^ arc4_ks (arc4_new [0x61, 0x20, 0x6b, 0x65, 0x79]) 0)
        (Set.Iio 256) (Set.Iio 256) := by
  have h1 := c10_arc4_state_permutation.1 [0x61, 0x20, 0x6b, 0x65, 0x79] (by decide)
  exact ⟨by decide, h1, c10_arc4_state_permutation.2.1 _ [1, 2] h1,
    c10_arc4_state_permutation.2.2 _ 0 h1⟩

/-! ## SRP authentication (`srp.rs`, claim C4) -/

/-- Rotate a 32-bit word right. -/
def rotr32 (x n : Nat) : Nat := x / 2 ^ n + x % 2 ^ n * 2 ^ (32 - n)

/-- Big-endian digits of a positive number (empty for zero); the fuel
argument only bounds the byte count. -/
def nat_be_aux : Nat → Nat → List Nat
  | 0, _ => []
  | f + 1, n => if n = 0 then [] else nat_be_aux f (n / 256) ++ [n % 256]

/-- `utils::big_int_to_bytes` (`to_bytes_be`, minimal big-endian; the source
asserts the value is non-negative, which holds at every call below). -/
def big_int_to_bytes (i : Int) : List Nat :=
  if i.toNat = 0 then [0] else nat_be_aux 256 i.toNat

/-- `utils::bytes_to_big_int` (`from_bytes_be`, plus sign). -/
def bytes_to_big_int (b : List Nat) : Int :=
  (b.foldl (fun a c => a * 256 + c) 0 : Nat)

def hex_digit_val (c : Char) : Nat :=
  if c.toNat ≤ 57 then c.toNat - 48
  else if c.toNat ≤ 70 then c.toNat - 55
  else c.toNat - 87

/-- `utils::big_int_from_hex_string` (`BigInt::parse_bytes(s, 16)`). -/
def big_int_from_hex_chars (l : List Char) : Int :=
  (l.foldl (fun a c => a * 16 + hex_digit_val c) 0 : Nat)

def big_int_from_hex_string (s : String) : Int :=
  big_int_from_hex_chars s.data

/-- `hex::decode` of an ASCII hex string. -/
def hex_decode_chars : List Char → List Nat
  | c1 :: c2 :: t => (hex_digit_val c1 * 16 + hex_digit_val c2) :: hex_decode_chars t
  | _ => []

def hex_char (n : Nat) : Char :=
  Char.ofNat (if n < 10 then 48 + n else 87 + n)

/-- `Digest::result_str`: the digest bytes as lowercase hex characters. -/
def to_hex_chars (b : List Nat) : List Char :=
  (b.map (fun x => [hex_char (x / 16), hex_char (x % 16)])).flatten

/-- A UTF-8/ASCII string as its byte list (`as_bytes`). -/
def str_bytes (s : String) : List Nat := s.data.map Char.toNat

/-- Big-endian 64-bit length field of the SHA padding. -/
def be64 (n : Nat) : List Nat :=
  [n / 2 ^ 56 % 256, n / 2 ^ 48 % 256, n / 2 ^ 40 % 256, n / 2 ^ 32 % 256,
   n / 2 ^ 24 % 256, n / 2 ^ 16 % 256, n / 2 ^ 8 % 256, n % 256]

/-- Merkle-Damgard padding shared by SHA-1 and SHA-256. -/
def sha_pad (msg : List Nat) : List Nat :=
  msg ++ [128] ++ List.replicate ((120 - (msg.length % 64 + 1)) % 64) 0 ++
    be64 (msg.length * 8)

/-- Split into 64-byte blocks; fuel bounded by the list length. -/
def split_chunks : Nat → List Nat → List (List Nat)
  | 0, _ => []
  | _ + 1, [] => []
  | f + 1, l => l.take 64 :: split_chunks f (l.drop 64)

/-- Big-endian 32-bit words of a block. -/
def be32_words : List Nat → List Nat
  | a :: b :: c :: d :: t => (a * 16777216 + b * 65536 + c * 256 + d) :: be32_words t
  | _ => []

def u32_to_be_bytes (n : Nat) : List Nat :=
  [n / 16777216 % 256, n / 65536 % 256, n / 256 % 256, n % 256]

/-- SHA-1 message schedule: extend 16 words to 80. -/
def sha1_schedule (w : List Nat) : List Nat :=
  (List.range 64).foldl
    (fun w _ => w ++ [rotl32
      (((w.getD (w.length - 3) 0 ^^^ w.getD (w.length - 8) 0) ^^^
        w.getD (w.length - 14) 0) ^^^ w.getD (w.length - 16) 0) 1]) w

/-- One SHA-1 round. -/
def sha1_round (st : Nat × Nat × Nat × Nat × Nat) (iw : Nat × Nat) :
    Nat × Nat × Nat × Nat × Nat :=
  let (a, b, c, d, e) := st
  let (i, wi) := iw
  let f :=
    if i < 20 then (b &&& c) ||| ((b ^^^ 4294967295) &&& d)
    else if i < 40 then (b ^^^ c) ^^^ d
    else if i < 60 then ((b &&& c) ||| (b &&& d)) ||| (c &&& d)
    else (b ^^^ c) ^^^ d
  let k :=
    if i < 20 then 1518500249
    else if i < 40 then 1859775393
    else if i < 60 then 2400959708
    else 3395469782
  let temp := (rotl32 a 5 + f + e + k + wi) % U32
  (temp, a, rotl32 b 30, c, d)

/-- SHA-1 compression of one 64-byte block. -/
def sha1_compress (h : Nat × Nat × Nat × Nat × Nat) (chunk : List Nat) :
    Nat × Nat × Nat × Nat × Nat :=
  let ws := sha1_schedule (be32_words chunk)
  let (a, b, c, d, e) := ((List.range 80).zip ws).foldl sha1_round h
  ((h.1 + a) % U32, (h.2.1 + b) % U32, (h.2.2.1 + c) % U32,
   (h.2.2.2.1 + d) % U32, (h.2.2.2.2 + e) % U32)

/-- SHA-1 digest bytes of a byte message (`crypto::sha1::Sha1`). -/
def sha1 (msg : List Nat) : List Nat :=
  let padded := sha_pad msg
  let h := (split_chunks padded.length padded).foldl sha1_compress
    (1732584193, 4023233417, 2562383102, 271733878, 3285377520)
  u32_to_be_bytes h.1 ++ u32_to_be_bytes h.2.1 ++ u32_to_be_bytes h.2.2.1 ++
    u32_to_be_bytes h.2.2.2.1 ++ u32_to_be_bytes h.2.2.2.2

/-- The SHA-256 round constants. -/
def sha256_k : List Nat :=
  [1116352408, 1899447441, 3049323471, 3921009573, 961987163, 1508970993,
   2453635748, 2870763221, 3624381080, 310598401, 607225278, 1426881987,
   1925078388, 2162078206, 2614888103, 3248222580, 3835390401, 4022224774,
   264347078, 604807628, 770255983, 1249150122, 1555081692, 1996064986,
   2554220882, 2821834349, 2952996808, 3210313671, 3336571891, 3584528711,
   113926993, 338241895, 666307205, 773529912, 1294757372, 1396182291,
   1695183700, 1986661051, 2177026350, 2456956037, 2730485921, 2820302411,
   3259730800, 3345764771, 3516065817, 3600352804, 4094571909, 275423344,
   430227734, 506948616, 659060556, 883997877, 958139571, 1322822218,
   1537002063, 1747873779, 1955562222, 2024104815, 2227730452, 2361852424,
   2428436474, 2756734187, 3204031479, 3329325298]

/-- SHA-256 message schedule: extend 16 words to 64. -/
def sha256_schedule (w : List Nat) : List Nat :=
  (List.range 48).foldl
    (fun w _ =>
      let w15 := w.getD (w.length - 15) 0
      let w2 := w.getD (w.length - 2) 0
      let s0 := (rotr32 w15 7 ^^^ rotr32 w15 18) ^^^ w15 / 2 ^ 3
      let s1 := (rotr32 w2 17 ^^^ rotr32 w2 19) ^^^ w2 / 2 ^ 10
      w ++ [(w.getD (w.length - 16) 0 + s0 + w.getD (w.length - 7) 0 + s1) % U32]) w

/-- One SHA-256 round. -/
def sha256_round (st : Nat × Nat × Nat × Nat × Nat × Nat × Nat × Nat)
    (kw : Nat × Nat) : Nat × Nat × Nat × Nat × Nat × Nat × Nat × Nat :=
  let (a, b, c, d, e, f, g, h) := st
  let (ki, wi) := kw
  let s1 := (rotr32 e 6 ^^^ rotr32 e 11) ^^^ rotr32 e 25
  let ch := (e &&& f) ^^^ ((e ^^^ 4294967295) &&& g)
  let temp1 := (h + s1 + ch + ki + wi) % U32
  let s0 := (rotr32 a 2 ^^^ rotr32 a 13) ^^^ rotr32 a 22
  let maj := ((a &&& b) ^^^ (a &&& c)) ^^^ (b &&& c)
  let temp2 := (s0 + maj) % U32
  ((temp1 + temp2) % U32, a, b, c, (d + temp1) % U32, e, f, g)

/-- SHA-256 compression of one 64-byte block. -/
def sha256_compress (h : Nat × Nat × Nat × Nat × Nat × Nat × Nat × Nat)
    (chunk : List Nat) : Nat × Nat × Nat × Nat × Nat × Nat × Nat × Nat :=
  let ws := sha256_schedule (be32_words chunk)
  let (a, b, c, d, e, f, g, hh) := (sha256_k.zip ws).foldl sha256_round h
  ((h.1 + a) % U32, (h.2.1 + b) % U32, (h.2.2.1 + c) % U32, (h.2.2.2.1 + d) % U32,
   (h.2.2.2.2.1 + e) % U32, (h.2.2.2.2.2.1 + f) % U32,
   (h.2.2.2.2.2.2.1 + g) % U32, (h.2.2.2.2.2.2.2 + hh) % U32)

/-- SHA-256 digest bytes of a byte message (`crypto::sha2::Sha256`). -/
def sha256 (msg : List Nat) : List Nat :=
  let padded := sha_pad msg
  let h := (split_chunks padded.length padded).foldl sha256_compress
    (1779033703, 3144134277, 1013904242, 2773480762,
     1359893119, 2600822924, 528734635, 1541459225)
  u32_to_be_bytes h.1 ++ u32_to_be_bytes h.2.1 ++ u32_to_be_bytes h.2.2.1 ++
    u32_to_be_bytes h.2.2.2.1 ++ u32_to_be_bytes h.2.2.2.2.1 ++
    u32_to_be_bytes h.2.2.2.2.2.1 ++ u32_to_be_bytes h.2.2.2.2.2.2.1 ++
    u32_to_be_bytes h.2.2.2.2.2.2.2

/-- Square-and-multiply `b ^ e % m` on naturals; the fuel argument only
bounds the halvings of the exponent, `e + 1` always suffices. -/
def natPowMod : Nat → Nat → Nat → Nat → Nat
  | 0, _, _, m => 1 % m
  | f + 1, b, e, m =>
    if e = 0 then 1 % m
    else
      let h := natPowMod f (b * b % m) (e / 2) m
      if e % 2 = 1 then h * b % m else h

/-- `BigInt::modpow` of `num_bigint` (non-negative exponent and positive
modulus; the result lies in `[0, m)` even for a negative base, i.e. the
base is reduced with the euclidean remainder). The fuel 2048 covers every
exponent below `2 ^ 2048`; all exponents in this file are below `2 ^ 1024`. -/
def modpow (b : Int) (e m : Int) : Int :=
  (natPowMod 2048 ((b.emod m).toNat) e.toNat m.toNat : Nat)

def DEBUG_PRIVATE_KEY : String :=
  "60975527035CF2AD1989806F0407210BC81EDC04E2762A56AFD529DDDA2D4393"

def DEBUG_SALT : String :=
  "02E268803000000079A478A700000002D1A6979000000026E1601C000000054F"

def srp_prime : Int := big_int_from_hex_string
  "E67D2E994B2F900C3F41F08F5BB2627ED0D49EE1FE767A52EFCD565CD6E768812C3E1E9CE8F0A8BEA6CB13CD29DDEBF7A96D4A93B55D488DF099A15C89DCB0640738EB2CBDD9A8F7BAB561AB1B0DC1C6CDABF303264A08D1BCA932D1F1EE428B619D970F342ABA9A65793B8B2F041AE5364350C16F735F56ECBCA87BD57B29E7"

def srp_g : Int := 2

def srp_k : Int := 1277432915985975349439481660349303019122249719989

/-- `srp::pad`: minimal big-endian bytes, truncated from the left to
`SRP_KEY_SIZE` (128) bytes. -/
def pad (v : Int) : List Nat :=
  let buf := big_int_to_bytes v
  buf.drop (buf.length - 128)

/-- `utils::big_int_to_sha1` (`hex::decode(big_int_to_sha1_hex(i))`). -/
def big_int_to_sha1 (i : Int) : List Nat :=
  hex_decode_chars (to_hex_chars (sha1 (big_int_to_bytes i)))

/-- `srp::get_scramble`. -/
def get_scramble (key_public_a key_public_b : Int) : Int :=
  big_int_from_hex_chars (to_hex_chars (sha1 (pad key_public_a ++ pad key_public_b)))

/-- `srp::get_string_hash`. -/
def get_string_hash (s : String) : Int :=
  big_int_from_hex_chars (to_hex_chars (sha1 (str_bytes s)))

/-- `srp::get_user_hash`. -/
def get_user_hash (salt : List Nat) (user password : String) : Int :=
  let hash1 := sha1 (str_bytes user ++ str_bytes ":" ++ str_bytes password)
  let hash2 := sha1 (salt ++ hex_decode_chars (to_hex_chars hash1))
  bytes_to_big_int (hex_decode_chars (to_hex_chars hash2))

/-- `srp::get_client_seed` with `SRP_DEBUG` set, as in the source. -/
def get_client_seed : Int × Int :=
  let key_private_a := big_int_from_hex_string DEBUG_PRIVATE_KEY
  (modpow srp_g key_private_a srp_prime, key_private_a)

/-- `srp::get_salt` with `SRP_DEBUG` set. -/
def get_salt : List Nat := hex_decode_chars DEBUG_SALT.data

/-- `srp::get_verifier`. -/
def get_verifier (user password : String) (salt : List Nat) : Int :=
  modpow srp_g (get_user_hash salt user password) srp_prime

/-- `srp::get_server_seed` with `SRP_DEBUG` set (`%` on `BigInt` is the
truncated remainder). -/
def get_server_seed (v : Int) : Int × Int :=
  let key_private_b := big_int_from_hex_string DEBUG_PRIVATE_KEY
  let gb := modpow srp_g key_private_b srp_prime
  let kv := (srp_k * v).tmod srp_prime
  ((kv + gb).tmod srp_prime, key_private_b)

/-- `srp::get_client_session`. -/
def get_client_session (user password : String) (salt : List Nat)
    (key_public_a key_public_b key_private_a : Int) : List Nat :=
  let u := get_scramble key_public_a key_public_b
  let x := get_user_hash salt user password
  let gx := modpow srp_g x srp_prime
  let kgx := (srp_k * gx).tmod srp_prime
  let diff := (key_public_b - kgx).tmod srp_prime
  let ux := (u * x).tmod srp_prime
  let aux := (key_private_a + ux).tmod srp_prime
  big_int_to_sha1 (modpow diff aux srp_prime)

/-- `srp::get_server_session`. -/
def get_server_session (user password : String) (salt : List Nat)
    (key_public_a key_public_b key_private_b : Int) : List Nat :=
  let u := get_scramble key_public_a key_public_b
  let v := get_verifier user password salt
  let vu := modpow v u srp_prime
  let avu := (key_public_a * vu).tmod srp_prime
  big_int_to_sha1 (modpow avu key_private_b srp_prime)

/-- `srp::get_client_proof`: `(M, K)`; an unknown plugin name panics. -/
def get_client_proof (user password : String) (salt : List Nat)
    (key_public_a key_public_b key_private_a : Int) (plugin_name : String) :
    Option (List Nat × List Nat) :=
  let key_k := get_client_session user password salt key_public_a key_public_b
    key_private_a
  let n1 := bytes_to_big_int (big_int_to_sha1 srp_prime)
  let n2 := bytes_to_big_int (big_int_to_sha1 srp_g)
  let n3 := modpow n1 n2 srp_prime
  let n4 := get_string_hash user
  if plugin_name = "Srp" then
    let key_m := hex_decode_chars (to_hex_chars (sha1
      (big_int_to_bytes n3 ++ big_int_to_bytes n4 ++ salt ++
        big_int_to_bytes key_public_a ++ big_int_to_bytes key_public_b ++ key_k)))
    some (key_m, key_k)
  else if plugin_name = "Srp256" then
    let key_m := hex_decode_chars (to_hex_chars (sha256
      (big_int_to_bytes n3 ++ big_int_to_bytes n4 ++ salt ++
        big_int_to_bytes key_public_a ++ big_int_to_bytes key_public_b ++ key_k)))
    some (key_m, key_k)
  else none

set_option maxRecDepth 40000 in
set_option maxHeartbeats 8000000 in
/-- Claim C4: with user `SYSDBA`, password `masterkey`, the debug salt and
the debug private key used for both the client and the server private
keys, the session key `K` returned by `get_client_proof` equals the key
computed by `get_server_session`, both for plugin name `Srp` and for
`Srp256` (the key itself is SHA-1-derived in both cases). -/
theorem c4_srp_session_keys_agree :
    (get_client_proof "SYSDBA" "masterkey" get_salt get_client_seed.1
        (get_server_seed (get_verifier "SYSDBA" "masterkey" get_salt)).1
        get_client_seed.2 "Srp").map Prod.snd =
      some (get_server_session "SYSDBA" "masterkey" get_salt get_client_seed.1
        (get_server_seed (get_verifier "SYSDBA" "masterkey" get_salt)).1
        (get_server_seed (get_verifier "SYSDBA" "masterkey" get_salt)).2) ∧
    (get_client_proof "SYSDBA" "masterkey" get_salt get_client_seed.1
        (get_server_seed (get_verifier "SYSDBA" "masterkey" get_salt)).1
        get_client_seed.2 "Srp256").map Prod.snd =
      some (get_server_session "SYSDBA" "masterkey" get_salt get_client_seed.1
        (get_server_seed (get_verifier "SYSDBA" "masterkey" get_salt)).1
        (get_server_seed (get_verifier "SYSDBA" "masterkey" get_salt)).2) := by
  constructor <;> decide

/-! ## Request packet construction (`wireprotocol.rs` / `wireprotocol_async.rs`) -/

/-- `u32` value of an `i32` handle (`handle as u32`, two's complement). -/
def u32_of_i32 (n : Int) : Nat := (n % 4294967296).toNat

/-- `utils::xdr_bytes`: big-endian `u32` length, the bytes, zero padding to
a four-byte boundary. -/
def xdr_bytes (b : List Nat) : List Nat :=
  ubint32_to_bytes (b.length % U32) ++ b ++
    List.replicate (if b.length % 4 = 0 then 0 else 4 - b.length % 4) 0

/-- `utils::bytes_to_blr`: the padded value bytes and the `[14, len]` TEXT
descriptor. -/
def bytes_to_blr (b : List Nat) : List Nat × List Nat :=
  ([14, b.length % 256, b.length / 256 % 256],
    b ++ List.replicate (if b.length % 4 = 0 then 0 else 4 - b.length % 4) 0)

/-- The parameter variants the blocking engine's `params_to_blr` supports;
`other` stands for every remaining `Param` variant, on which the source
panics (`"another to parameter"`). -/
inductive Param where
  | null : Param
  | text : List Nat → Param
  | long : Int → Param
  | other : Param
deriving DecidableEq

/-- Little-endian bytes of the null-indicator bitmap (`k` iterations of
`push(ind & 255); ind >>= 8`). -/
def null_indicator_bytes : Nat → Nat → List Nat
  | 0, _ => []
  | k + 1, ind => ind % 256 :: null_indicator_bytes k (ind / 256)

/-- The null-indicator bitmap value for a parameter list (bit `i` set when
parameter `i` is null). -/
def null_bits (isnull : List Bool) : Nat :=
  (List.range isnull.length).foldl
    (fun acc i => if isnull.getD i false then acc ||| 2 ^ i else acc) 0

/-- Byte count of the null-indicator bitmap: `ceil(len / 8)` padded to a
four-byte multiple. -/
def null_indicator_len (plen : Nat) : Nat :=
  let n := plen / 8 + (if plen % 8 = 0 then 0 else 1)
  n + (if n % 4 = 0 then 0 else 4 - n % 4)

/-- `WireProtocol::params_to_blr` (blocking engine): only `Null`, `Text`
and `Long` are implemented; any other variant panics (`none`). -/
def sync_params_to_blr (params : List Param) : Option (List Nat × List Nat) :=
  let ln := params.length * 2
  let head := [5, 2, 4, 0, ln % 256, ln / 256 % 256]
  let bitmap := null_indicator_bytes (null_indicator_len params.length)
    (null_bits (params.map fun p => p = Param.null))
  let rec go : List Param → Option (List Nat × List Nat)
    | [] => some ([255, 76], [])
    | p :: rest => do
      let (blrTail, valTail) ← go rest
      match p with
      | Param.null => some ([7, 0] ++ blrTail, [14, 0, 0] ++ valTail)
      | Param.text s =>
        let (blr, v) := bytes_to_blr s
        some (blr ++ [7, 0] ++ blrTail, v ++ valTail)
      | Param.long n =>
        some ([8, 0] ++ [7, 0] ++ blrTail, ubint32_to_bytes (u32_of_i32 n) ++ valTail)
      | Param.other => none
  (go params).map fun t => (head ++ t.1, bitmap ++ t.2)

/-- `WireProtocolAsync::params_to_blr`: parameters arrive pre-marshalled
as `(value, blr, isnull)` triples. -/
def async_params_to_blr (params : List (List Nat × List Nat × Bool)) :
    List Nat × List Nat :=
  let ln := params.length * 2
  let head := [5, 2, 4, 0, ln % 256, ln / 256 % 256]
  let bitmap := null_indicator_bytes (null_indicator_len params.length)
    (null_bits (params.map fun p => p.2.2))
  (bitmap ++ (params.map fun p => p.1).flatten,
    head ++ (params.map fun p => p.2.1 ++ [7, 0]).flatten ++ [255, 76])

/-- `WireProtocol::op_execute` (blocking engine): the bytes placed on the
channel; the session's `protocol_version` is passed in but never
consulted. `none` models the `params_to_blr` panic. -/
def sync_op_execute (protocol_version : Int) (stmt_handle trans_handle : Int)
    (params : List Param) : Option (List Nat) :=
  let _ := protocol_version
  let head := ubint32_to_bytes 63 ++ ubint32_to_bytes (u32_of_i32 stmt_handle) ++
    ubint32_to_bytes (u32_of_i32 trans_handle)
  if params.length = 0 then
    some (head ++ ubint32_to_bytes 0 ++ ubint32_to_bytes 0 ++ ubint32_to_bytes 0)
  else
    (sync_params_to_blr params).map fun t =>
      head ++ xdr_bytes t.1 ++ ubint32_to_bytes 0 ++ ubint32_to_bytes 1 ++ t.2

/-- `WireProtocolAsync::op_execute` (cooperative engine): same layout,
plus four zero bytes (the statement-timeout placeholder) when
`protocol_version >= 16`. -/
def async_op_execute (protocol_version : Int) (stmt_handle trans_handle : Int)
    (params : List (List Nat × List Nat × Bool)) : List Nat :=
  let head := ubint32_to_bytes 63 ++ ubint32_to_bytes (u32_of_i32 stmt_handle) ++
    ubint32_to_bytes (u32_of_i32 trans_handle)
  let body :=
    if params.length = 0 then
      head ++ ubint32_to_bytes 0 ++ ubint32_to_bytes 0 ++ ubint32_to_bytes 0
    else
      head ++ xdr_bytes (async_params_to_blr params).2 ++ ubint32_to_bytes 0 ++
        ubint32_to_bytes 1 ++ (async_params_to_blr params).1
  if 16 ≤ protocol_version then body ++ [0, 0, 0, 0] else body

/-! ### Claim C1: engine equivalence on `op_execute` -/

/-- C1 counterexample input: on a session with `protocol_version = 16`,
same handles, empty parameter list, the two engines write different
packets (the cooperative engine appends the statement-timeout word). -/
theorem c1_op_execute_engines_differ :
    sync_op_execute 16 1 2 [] ≠ some (async_op_execute 16 1 2 []) := by decide

/-- C1 (amended): with identical handles and an empty parameter list the
two engines write byte-for-byte identical `op_execute` packets exactly
when `protocol_version < 16`; for `protocol_version ≥ 16` the cooperative
packet is the blocking packet followed by one zero `u32`. -/
theorem c1_op_execute_agreement (pv stmt trans : Int) :
    (pv < 16 → sync_op_execute pv stmt trans [] = some (async_op_execute pv stmt trans [])) ∧
    (16 ≤ pv →
      (sync_op_execute pv stmt trans []).map (fun l => l ++ [0, 0, 0, 0]) =
        some (async_op_execute pv stmt trans [])) := by
  constructor
  · intro h
    have hn : ¬(16 ≤ pv) := by omega
    simp [sync_op_execute, async_op_execute, hn]
  · intro h
    simp [sync_op_execute, async_op_execute, h]

/-- C1 witness: agreement at `protocol_version = 13`, divergence shape at
`protocol_version = 17`. -/
theorem c1_op_execute_agreement_witness :
    sync_op_execute 13 7 9 [] = some (async_op_execute 13 7 9 []) ∧
      (sync_op_execute 17 7 9 []).map (fun l => l ++ [0, 0, 0, 0]) =
        some (async_op_execute 17 7 9 []) :=
  ⟨(c1_op_execute_agreement 13 7 9).1 (by decide),
    (c1_op_execute_agreement 17 7 9).2 (by decide)⟩

/-! ### Claim C2: the statement-timeout trailer -/

/-- C2 counterexample input: the blocking engine's `op_execute` appends
nothing on a `protocol_version = 16` session — its packet equals the
`protocol_version = 15` packet instead of that packet plus a zero `u32`. -/
theorem c2_sync_never_appends_timeout :
    sync_op_execute 16 3 4 [] = sync_op_execute 15 3 4 [] ∧
      sync_op_execute 16 3 4 [] ≠
        (sync_op_execute 15 3 4 []).map (fun l => l ++ [0, 0, 0, 0]) := by
  constructor
  · rfl
  · decide

/-- C2 (amended): the cooperative engine's `op_execute` appends the
trailing zero `u32` exactly when `protocol_version ≥ 16`; the blocking
engine's `op_execute` never appends it (its output does not depend on the
protocol version). -/
theorem c2_timeout_trailer (pv stmt trans : Int)
    (params : List (List Nat × List Nat × Bool)) (sparams : List Param) :
    (16 ≤ pv →
      async_op_execute pv stmt trans params =
        async_op_execute 15 stmt trans params ++ [0, 0, 0, 0]) ∧
    (pv < 16 →
      async_op_execute pv stmt trans params = async_op_execute 15 stmt trans params) ∧
    sync_op_execute pv stmt trans sparams = sync_op_execute 15 stmt trans sparams := by
  refine ⟨fun h => ?_, fun h => ?_, rfl⟩
  · simp [async_op_execute, h]
  · have hn : ¬(16 ≤ pv) := by omega
    simp [async_op_execute, hn]

/-- C2 witness: the trailer appears at `protocol_version = 16` and not at
`protocol_version = 13`. -/
theorem c2_timeout_trailer_witness :
    async_op_execute 16 5 6 [] = async_op_execute 15 5 6 [] ++ [0, 0, 0, 0] ∧
      async_op_execute 13 5 6 [] = async_op_execute 15 5 6 [] ∧
      sync_op_execute 16 5 6 [] = sync_op_execute 15 5 6 [] :=
  ⟨(c2_timeout_trailer 16 5 6 [] []).1 (by decide),
    ((c2_timeout_trailer 13 5 6 [] []).2).1 (by decide),
    ((c2_timeout_trailer 16 5 6 [] []).2).2⟩

/-! ## XSQLDA parsing (`parse_select_items` / `parse_xsqlda`, claim C7) -/

/-- `i32` value of a `u32` (two's complement reading, `as i32`). -/
def i32_of_u32 (n : Nat) : Int :=
  if n < 2147483648 then (n : Int) else (n : Int) - 4294967296

/-- One column descriptor (`xsqlvar.rs`); strings are byte lists. -/
structure XSQLVar where
  sqltype : Nat
  sqlscale : Int
  sqlsubtype : Int
  sqllen : Int
  null_ok : Bool
  fieldname : List Nat
  relname : List Nat
  ownname : List Nat
  aliasname : List Nat
deriving DecidableEq

/-- `XSQLVar::new`. -/
def XSQLVar.new : XSQLVar := ⟨0, 0, 0, 0, false, [], [], [], []⟩

/-- `info_sql_select_describe_vars()`. -/
def describe_vars13 : List Nat := [4, 7, 9, 11, 12, 13, 14, 15, 16, 17, 18, 19, 8]

/-- `WireProtocol::op_info_sql` request bytes. -/
def wp_op_info_sql (stmt_handle : Int) (vars : List Nat) : List Nat :=
  ubint32_to_bytes 70 ++ ubint32_to_bytes (u32_of_i32 stmt_handle) ++
    ubint32_to_bytes 0 ++ xdr_bytes vars ++ ubint32_to_bytes 1024

/-- The cooperative engine's `parse_select_items`
(`wireprotocol_async.rs`): walk tag/len/value records, mutating the
descriptor at the last `SQLDA_SEQ` index; `ISC_INFO_TRUNCATED` returns
that index, `ISC_INFO_END` returns `-1`. Out-of-bounds reads, the
`"protocol sequence fail!"` panic and out-of-range indexing are `none`.
The fuel argument only bounds the loop; `buf.length + 1` always
suffices. -/
def parse_select_items_async : Nat → List Nat → Nat → List XSQLVar →
    Option (Int × List XSQLVar)
  | 0, _, _, _ => none
  | _ + 1, [], _, _ => none
  | fuel + 1, item :: rest, index, x =>
    if item = 1 then some (-1, x)
    else if item = 2 then some ((index : Int), x)
    else if item = 8 then parse_select_items_async fuel rest index x
    else
      match rest with
      | l0 :: l1 :: rest2 =>
        let ln := l0 + l1 * 256
        if ln ≤ rest2.length then
          let v := rest2.take ln
          let rem := rest2.drop ln
          if item = 9 then
            if 4 ≤ ln then parse_select_items_async fuel rem (bytes_to_uint32 v) x else none
          else if 1 ≤ index ∧ index ≤ x.length then
            let old := x.getD (index - 1) XSQLVar.new
            if item = 11 then
              if 4 ≤ ln then
                let t := bytes_to_uint32 v
                let t2 := if t % 2 ≠ 0 then t - 1 else t
                parse_select_items_async fuel rem index (x.set (index - 1) { old with sqltype := t2 })
              else none
            else if item = 12 then
              if 4 ≤ ln then
                parse_select_items_async fuel rem index
                  (x.set (index - 1) { old with sqlsubtype := i32_of_u32 (bytes_to_uint32 v) })
              else none
            else if item = 13 then
              if 4 ≤ ln then
                parse_select_items_async fuel rem index
                  (x.set (index - 1) { old with sqlscale := i32_of_u32 (bytes_to_uint32 v) })
              else none
            else if item = 14 then
              if 4 ≤ ln then
                parse_select_items_async fuel rem index
                  (x.set (index - 1) { old with sqllen := i32_of_u32 (bytes_to_uint32 v) })
              else none
            else if item = 15 then
              if 4 ≤ ln then
                parse_select_items_async fuel rem index
                  (x.set (index - 1) { old with null_ok := bytes_to_uint32 v ≠ 0 })
              else none
            else if item = 16 then
              parse_select_items_async fuel rem index (x.set (index - 1) { old with fieldname := v })
            else if item = 17 then
              parse_select_items_async fuel rem index (x.set (index - 1) { old with relname := v })
            else if item = 18 then
              parse_select_items_async fuel rem index (x.set (index - 1) { old with ownname := v })
            else if item = 19 then
              parse_select_items_async fuel rem index (x.set (index - 1) { old with aliasname := v })
            else none
          else none
        else none
      | _ => none

/-- The blocking engine's `parse_select_items` (`wireprotocol.rs`). It
differs from the cooperative one in two arms: `ISC_INFO_SQL_SUB_TYPE`
is read into a discarded local, and `ISC_INFO_SQL_SCALE` is stored into
the `sqlsubtype` field. -/
def parse_select_items_sync : Nat → List Nat → Nat → List XSQLVar →
    Option (Int × List XSQLVar)
  | 0, _, _, _ => none
  | _ + 1, [], _, _ => none
  | fuel + 1, item :: rest, index, x =>
    if item = 1 then some (-1, x)
    else if item = 2 then some ((index : Int), x)
    else if item = 8 then parse_select_items_sync fuel rest index x
    else
      match rest with
      | l0 :: l1 :: rest2 =>
        let ln := l0 + l1 * 256
        if ln ≤ rest2.length then
          let v := rest2.take ln
          let rem := rest2.drop ln
          if item = 9 then
            if 4 ≤ ln then parse_select_items_sync fuel rem (bytes_to_uint32 v) x else none
          else if item = 12 then
            if 4 ≤ ln then parse_select_items_sync fuel rem index x else none
          else if 1 ≤ index ∧ index ≤ x.length then
            let old := x.getD (index - 1) XSQLVar.new
            if item = 11 then
              if 4 ≤ ln then
                let t := bytes_to_uint32 v
                let t2 := if t % 2 ≠ 0 then t - 1 else t
                parse_select_items_sync fuel rem index (x.set (index - 1) { old with sqltype := t2 })
              else none
            else if item = 13 then
              if 4 ≤ ln then
                parse_select_items_sync fuel rem index
                  (x.set (index - 1) { old with sqlsubtype := i32_of_u32 (bytes_to_uint32 v) })
              else none
            else if item = 14 then
              if 4 ≤ ln then
                parse_select_items_sync fuel rem index
                  (x.set (index - 1) { old with sqllen := i32_of_u32 (bytes_to_uint32 v) })
              else none
            else if item = 15 then
              if 4 ≤ ln then
                parse_select_items_sync fuel rem index
                  (x.set (index - 1) { old with null_ok := bytes_to_uint32 v ≠ 0 })
              else none
            else if item = 16 then
              parse_select_items_sync fuel rem index (x.set (index - 1) { old with fieldname := v })
            else if item = 17 then
              parse_select_items_sync fuel rem index (x.set (index - 1) { old with relname := v })
            else if item = 18 then
              parse_select_items_sync fuel rem index (x.set (index - 1) { old with ownname := v })
            else if item = 19 then
              parse_select_items_sync fuel rem index (x.set (index - 1) { old with aliasname := v })
            else none
          else none
        else none
      | _ => none

/-- `next_index as u16` (`int16_to_bytes(next_index as u16)`). -/
def u16_of_int (n : Int) : Nat := (n % 65536).toNat

/-- `isize` value truncated `as i16`. -/
def i16_of_int (n : Int) : Int := (n + 32768) % 65536 - 32768

/-- The continuation loop of `parse_xsqlda` (`while next_index > 0`),
shared shape for both engines but parameterized by the items parser.
`responses` is the oracle of `op_response` payload buffers; the result
carries the updated descriptors, the unconsumed responses and the
`op_info_sql` requests issued. -/
def xsqlda_cont_loop (items : Nat → List Nat → Nat → List XSQLVar →
      Option (Int × List XSQLVar)) (stmt_handle : Int) :
    Nat → List (List Nat) → List XSQLVar → Int → List (List Nat) →
    Option (List XSQLVar × List (List Nat) × List (List Nat))
  | 0, _, _, _, _ => none
  | fuel + 1, responses, x, next_index, reqs =>
    if next_index ≤ 0 then some (x, responses, reqs)
    else
      match responses with
      | [] => none
      | buf :: rtail =>
        let vars := [20, 2] ++ int16_to_bytes (u16_of_int next_index) ++ describe_vars13
        match buf with
        | c0 :: c1 :: _ :: _ :: ctail =>
          let ln := c0 + c1 * 256
          if ln ≤ ctail.length then
            match items ((ctail.drop ln).length + 1) (ctail.drop ln) 0 x with
            | none => none
            | some (res, x2) =>
              xsqlda_cont_loop items stmt_handle fuel rtail x2 (i16_of_int res)
                (reqs ++ [wp_op_info_sql stmt_handle vars])
          else none
        | _ => none

/-- Outer loop of the cooperative engine's `parse_xsqlda`: the cursor
walks `ISC_INFO_SQL_STMT_TYPE` records and `SQL_SELECT/DESCRIBE_VARS`
blocks, breaking on anything else. After a `SELECT` block the cursor has
only advanced past the four header bytes, exactly as in the source. -/
def xsqlda_loop_async (stmt_handle : Int) :
    Nat → List Nat → Nat → List XSQLVar → List (List Nat) → List (List Nat) →
    Option (Nat × List XSQLVar × List (List Nat))
  | 0, _, _, _, _, _ => none
  | _ + 1, [], stmt_type, x, _, reqs => some (stmt_type, x, reqs)
  | fuel + 1, b0 :: btail, stmt_type, x, responses, reqs =>
    if b0 = 21 then
      match btail with
      | b1 :: t2 =>
        if b1 = 4 then
          match t2 with
          | b2 :: rest2 =>
            if b2 = 0 then
              let ln := b1 + b2 * 256
              if 4 ≤ ln ∧ ln ≤ rest2.length then
                xsqlda_loop_async stmt_handle fuel (rest2.drop ln)
                  (bytes_to_uint32 (rest2.take ln)) x responses reqs
              else none
            else some (stmt_type, x, reqs)
          | [] => none
        else some (stmt_type, x, reqs)
      | [] => none
    else if b0 = 4 then
      match btail with
      | b1 :: rest1 =>
        if b1 = 7 then
          match rest1 with
          | l0 :: l1 :: rest2 =>
            let ln := l0 + l1 * 256
            if 4 ≤ ln ∧ ln ≤ rest2.length then
              let col_len := bytes_to_uint32 (rest2.take ln)
              let x1 := x ++ List.replicate col_len XSQLVar.new
              match parse_select_items_async ((rest2.drop ln).length + 1)
                  (rest2.drop ln) 0 x1 with
              | none => none
              | some (res, x2) =>
                match xsqlda_cont_loop parse_select_items_async stmt_handle
                    (responses.length + 1) responses x2 (i16_of_int res) reqs with
                | none => none
                | some (x3, responses2, reqs2) =>
                  xsqlda_loop_async stmt_handle fuel rest2 stmt_type x3 responses2 reqs2
            else none
          | _ => none
        else some (stmt_type, x, reqs)
      | _ => none
    else some (stmt_type, x, reqs)

/-- Outer loop of the blocking engine's `parse_xsqlda`
(`wireprotocol.rs`): its statement-type condition reads
`buf[i+1] == 4 && buf[i+1] == 0`, which never holds, so such records
always fall through to the break. -/
def xsqlda_loop_sync (stmt_handle : Int) :
    Nat → List Nat → Nat → List XSQLVar → List (List Nat) → List (List Nat) →
    Option (Nat × List XSQLVar × List (List Nat))
  | 0, _, _, _, _, _ => none
  | _ + 1, [], stmt_type, x, _, reqs => some (stmt_type, x, reqs)
  | fuel + 1, b0 :: btail, stmt_type, x, responses, reqs =>
    if b0 = 21 then
      match btail with
      | b1 :: rest1 =>
        if b1 = 4 ∧ b1 = 0 then
          match rest1 with
          | b2 :: rest2 =>
            let ln := b1 + b2 * 256
            if 4 ≤ ln ∧ ln ≤ rest2.length then
              xsqlda_loop_sync stmt_handle fuel (rest2.drop ln)
                (bytes_to_uint32 (rest2.take ln)) x responses reqs
            else none
          | [] => none
        else some (stmt_type, x, reqs)
      | [] => none
    else if b0 = 4 then
      match btail with
      | b1 :: rest1 =>
        if b1 = 7 then
          match rest1 with
          | l0 :: l1 :: rest2 =>
            let ln := l0 + l1 * 256
            if 4 ≤ ln ∧ ln ≤ rest2.length then
              let col_len := bytes_to_uint32 (rest2.take ln)
              let x1 := x ++ List.replicate col_len XSQLVar.new
              match parse_select_items_sync ((rest2.drop ln).length + 1)
                  (rest2.drop ln) 0 x1 with
              | none => none
              | some (res, x2) =>
                match xsqlda_cont_loop parse_select_items_sync stmt_handle
                    (responses.length + 1) responses x2 (i16_of_int res) reqs with
                | none => none
                | some (x3, responses2, reqs2) =>
                  xsqlda_loop_sync stmt_handle fuel rest2 stmt_type x3 responses2 reqs2
            else none
          | _ => none
        else some (stmt_type, x, reqs)
      | _ => none
    else some (stmt_type, x, reqs)

/-- `WireProtocolAsync::parse_xsqlda`: returns the statement type, the
descriptor vector and the list of continuation `op_info_sql` requests
issued against the response oracle. -/
def parse_xsqlda_async (stmt_handle : Int) (buf : List Nat)
    (responses : List (List Nat)) : Option (Nat × List XSQLVar × List (List Nat)) :=
  xsqlda_loop_async stmt_handle (buf.length + 1) buf 0 [] responses []

/-- `WireProtocol::parse_xsqlda` (blocking engine). -/
def parse_xsqlda_sync (stmt_handle : Int) (buf : List Nat)
    (responses : List (List Nat)) : Option (Nat × List XSQLVar × List (List Nat)) :=
  xsqlda_loop_sync stmt_handle (buf.length + 1) buf 0 [] responses []

/-- A complete canonical column group in a describe response: the
`SQLDA_SEQ` record for column `j`, a `SQL_TYPE` record (LONG, 496) and
`DESCRIBE_END`. -/
def column_group (j : Nat) : List Nat :=
  [9, 4, 0] ++ u32_to_le_bytes j ++ ([11, 4, 0] ++ u32_to_le_bytes 496) ++ [8]

/-- The canonical groups for columns `s+1 .. s+n`. -/
def column_groups (s n : Nat) : List Nat :=
  ((List.range n).map (fun i => column_group (s + 1 + i))).flatten

/-- A describe-response info block announcing `N` columns whose variable
stream carries complete groups for columns `1..k` and is then cut by the
`ISC_INFO_TRUNCATED` marker. -/
def truncated_describe_block (n k : Nat) : List Nat :=
  [4, 7, 4, 0] ++ u32_to_le_bytes n ++ column_groups 0 k ++ [2]

/-- The canonical continuation response: an empty leading section and a
variable stream holding only `ISC_INFO_END`. -/
def completion_response : List Nat := [0, 0, 0, 0, 1]

/-! ### Claim C7: truncated describe responses and continuation requests -/

/-- The net effect of parsing the canonical groups for columns
`s+1 .. s+n`: positions `s .. s+n-1` get `sqltype` 496. -/
def set_types : List XSQLVar → Nat → Nat → List XSQLVar
  | x, _, 0 => x
  | x, s, n + 1 =>
    set_types (x.set s { x.getD s XSQLVar.new with sqltype := 496 }) (s + 1) n

theorem set_types_length (n : Nat) : ∀ (x : List XSQLVar) (s : Nat),
    (set_types x s n).length = x.length := by
  induction n with
  | zero => intro x s; rfl
  | succ n ih => intro x s; rw [set_types, ih]; simp

theorem psia_seq (f j idx : Nat) (x : List XSQLVar) (rest : List Nat)
    (hj : j < 4294967296) :
    parse_select_items_async (f + 1) (9 :: 4 :: 0 :: (u32_to_le_bytes j ++ rest)) idx x =
    parse_select_items_async f rest j x := by
  have hval : bytes_to_uint32 ((u32_to_le_bytes j ++ rest).take 4) = j := by
    simp [u32_to_le_bytes, bytes_to_uint32, List.getD_cons_zero, List.getD_cons_succ]
    omega
  have hdrop : (u32_to_le_bytes j ++ rest).drop 4 = rest := by simp [u32_to_le_bytes]
  have hlen : 4 ≤ (u32_to_le_bytes j ++ rest).length := by simp [u32_to_le_bytes]
  simp [parse_select_items_async, hval, hdrop, hlen]
  intro hcon
  simp [u32_to_le_bytes] at hcon

theorem psia_type (f j : Nat) (x : List XSQLVar) (rest : List Nat)
    (hj1 : 1 ≤ j) (hj2 : j ≤ x.length) :
    parse_select_items_async (f + 1) (11 :: 4 :: 0 :: (u32_to_le_bytes 496 ++ rest)) j x =
    parse_select_items_async f rest j
      (x.set (j - 1) { x.getD (j - 1) XSQLVar.new with sqltype := 496 }) := by
  have hval : bytes_to_uint32 ((u32_to_le_bytes 496 ++ rest).take 4) = 496 := by
    simp [u32_to_le_bytes, bytes_to_uint32, List.getD_cons_zero, List.getD_cons_succ]
  have hdrop : (u32_to_le_bytes 496 ++ rest).drop 4 = rest := by simp [u32_to_le_bytes]
  have hlen : 4 ≤ (u32_to_le_bytes 496 ++ rest).length := by simp [u32_to_le_bytes]
  simp [parse_select_items_async, hval, hdrop, hlen, hj1, hj2]
  intro hcon
  simp [u32_to_le_bytes] at hcon

theorem psia_dend (f idx : Nat) (x : List XSQLVar) (rest : List Nat) :
    parse_select_items_async (f + 1) (8 :: rest) idx x =
    parse_select_items_async f rest idx x := by
  simp [parse_select_items_async]

theorem psia_trunc (f idx : Nat) (x : List XSQLVar) (rest : List Nat) :
    parse_select_items_async (f + 1) (2 :: rest) idx x = some ((idx : Int), x) := by
  simp [parse_select_items_async]



theorem psis_seq (f j idx : Nat) (x : List XSQLVar) (rest : List Nat)
    (hj : j < 4294967296) :
    parse_select_items_sync (f + 1) (9 :: 4 :: 0 :: (u32_to_le_bytes j ++ rest)) idx x =
    parse_select_items_sync f rest j x := by
  have hval : bytes_to_uint32 ((u32_to_le_bytes j ++ rest).take 4) = j := by
    simp [u32_to_le_bytes, bytes_to_uint32, List.getD_cons_zero, List.getD_cons_succ]
    omega
  have hdrop : (u32_to_le_bytes j ++ rest).drop 4 = rest := by simp [u32_to_le_bytes]
  have hlen : 4 ≤ (u32_to_le_bytes j ++ rest).length := by simp [u32_to_le_bytes]
  simp [parse_select_items_sync, hval, hdrop, hlen]
  intro hcon
  simp [u32_to_le_bytes] at hcon

theorem psis_type (f j : Nat) (x : List XSQLVar) (rest : List Nat)
    (hj1 : 1 ≤ j) (hj2 : j ≤ x.length) :
    parse_select_items_sync (f + 1) (11 :: 4 :: 0 :: (u32_to_le_bytes 496 ++ rest)) j x =
    parse_select_items_sync f rest j
      (x.set (j - 1) { x.getD (j - 1) XSQLVar.new with sqltype := 496 }) := by
  have hval : bytes_to_uint32 ((u32_to_le_bytes 496 ++ rest).take 4) = 496 := by
    simp [u32_to_le_bytes, bytes_to_uint32, List.getD_cons_zero, List.getD_cons_succ]
  have hdrop : (u32_to_le_bytes 496 ++ rest).drop 4 = rest := by simp [u32_to_le_bytes]
  have hlen : 4 ≤ (u32_to_le_bytes 496 ++ rest).length := by simp [u32_to_le_bytes]
  simp [parse_select_items_sync, hval, hdrop, hlen, hj1, hj2]
  intro hcon
  simp [u32_to_le_bytes] at hcon

theorem psis_dend (f idx : Nat) (x : List XSQLVar) (rest : List Nat) :
    parse_select_items_sync (f + 1) (8 :: rest) idx x =
    parse_select_items_sync f rest idx x := by
  simp [parse_select_items_sync]

theorem psis_trunc (f idx : Nat) (x : List XSQLVar) (rest : List Nat) :
    parse_select_items_sync (f + 1) (2 :: rest) idx x = some ((idx : Int), x) := by
  simp [parse_select_items_sync]

theorem column_group_append (j : Nat) (rest : List Nat) :
    column_group j ++ rest =
    9 :: 4 :: 0 :: (u32_to_le_bytes j ++
      (11 :: 4 :: 0 :: (u32_to_le_bytes 496 ++ (8 :: rest)))) := by
  simp [column_group]

theorem psia_group (f j idx : Nat) (x : List XSQLVar) (rest : List Nat)
    (hj1 : 1 ≤ j) (hj2 : j ≤ x.length) (hjU : j < 4294967296) :
    parse_select_items_async (f + 3) (column_group j ++ rest) idx x =
    parse_select_items_async f rest j
      (x.set (j - 1) { x.getD (j - 1) XSQLVar.new with sqltype := 496 }) := by
  rw [column_group_append, show f + 3 = f + 2 + 1 from rfl,
    psia_seq (f + 2) j idx x _ hjU, show f + 2 = f + 1 + 1 from rfl,
    psia_type (f + 1) j x _ hj1 hj2, psia_dend]

theorem psis_group (f j idx : Nat) (x : List XSQLVar) (rest : List Nat)
    (hj1 : 1 ≤ j) (hj2 : j ≤ x.length) (hjU : j < 4294967296) :
    parse_select_items_sync (f + 3) (column_group j ++ rest) idx x =
    parse_select_items_sync f rest j
      (x.set (j - 1) { x.getD (j - 1) XSQLVar.new with sqltype := 496 }) := by
  rw [column_group_append, show f + 3 = f + 2 + 1 from rfl,
    psis_seq (f + 2) j idx x _ hjU, show f + 2 = f + 1 + 1 from rfl,
    psis_type (f + 1) j x _ hj1 hj2, psis_dend]

theorem column_groups_succ (s n : Nat) :
    column_groups s (n + 1) = column_group (s + 1) ++ column_groups (s + 1) n := by
  simp only [column_groups, List.range_succ_eq_map, List.map_cons, List.map_map,
    List.flatten_cons, Nat.add_zero]
  congr 1
  congr 1
  apply List.map_congr_left
  intro i _
  simp only [Function.comp_apply]
  congr 1
  omega

theorem psia_groups (n : Nat) : ∀ (f s idx : Nat) (x : List XSQLVar) (rest : List Nat),
    s + n ≤ x.length → s + n < 4294967296 →
    parse_select_items_async (f + 3 * n) (column_groups s n ++ rest) idx x =
    parse_select_items_async f rest (if n = 0 then idx else s + n) (set_types x s n) := by
  induction n with
  | zero =>
    intro f s idx x rest _ _
    simp [column_groups, set_types]
  | succ n ih =>
    intro f s idx x rest hle hU
    rw [column_groups_succ, List.append_assoc,
      show f + 3 * (n + 1) = f + 3 * n + 3 from by ring,
      psia_group (f + 3 * n) (s + 1) idx x _ (by omega) (by omega) (by omega),
      Nat.add_sub_cancel,
      ih f (s + 1) (s + 1) _ rest (by simp; omega) (by omega)]
    rw [show set_types x s (n + 1) =
      set_types (x.set s { x.getD s XSQLVar.new with sqltype := 496 }) (s + 1) n from rfl]
    congr 1
    rcases n with _ | m
    · simp
    · simp
      omega

theorem psis_groups (n : Nat) : ∀ (f s idx : Nat) (x : List XSQLVar) (rest : List Nat),
    s + n ≤ x.length → s + n < 4294967296 →
    parse_select_items_sync (f + 3 * n) (column_groups s n ++ rest) idx x =
    parse_select_items_sync f rest (if n = 0 then idx else s + n) (set_types x s n) := by
  induction n with
  | zero =>
    intro f s idx x rest _ _
    simp [column_groups, set_types]
  | succ n ih =>
    intro f s idx x rest hle hU
    rw [column_groups_succ, List.append_assoc,
      show f + 3 * (n + 1) = f + 3 * n + 3 from by ring,
      psis_group (f + 3 * n) (s + 1) idx x _ (by omega) (by omega) (by omega),
      Nat.add_sub_cancel,
      ih f (s + 1) (s + 1) _ rest (by simp; omega) (by omega)]
    rw [show set_types x s (n + 1) =
      set_types (x.set s { x.getD s XSQLVar.new with sqltype := 496 }) (s + 1) n from rfl]
    congr 1
    rcases n with _ | m
    · simp
    · simp
      omega

theorem column_groups_length (s n : Nat) : (column_groups s n).length = 15 * n := by
  induction n generalizing s with
  | zero => simp [column_groups]
  | succ m ih =>
    rw [column_groups_succ]
    simp [column_group, u32_to_le_bytes, ih]
    ring

theorem psia_block (k : Nat) (x : List XSQLVar) (h1 : 1 ≤ k) (h2 : k ≤ x.length)
    (hU : k < 4294967296) :
    parse_select_items_async ((column_groups 0 k ++ [2]).length + 1)
      (column_groups 0 k ++ [2]) 0 x = some ((k : Int), set_types x 0 k) := by
  have hl : (column_groups 0 k ++ [2]).length + 1 = (12 * k + 2) + 3 * k := by
    simp [column_groups_length]
    ring
  rw [hl, psia_groups k (12 * k + 2) 0 0 x [2] (by omega) (by omega),
    if_neg (by omega)]
  rw [show 12 * k + 2 = (12 * k + 1) + 1 from by ring, psia_trunc]
  simp

theorem psis_block (k : Nat) (x : List XSQLVar) (h1 : 1 ≤ k) (h2 : k ≤ x.length)
    (hU : k < 4294967296) :
    parse_select_items_sync ((column_groups 0 k ++ [2]).length + 1)
      (column_groups 0 k ++ [2]) 0 x = some ((k : Int), set_types x 0 k) := by
  have hl : (column_groups 0 k ++ [2]).length + 1 = (12 * k + 2) + 3 * k := by
    simp [column_groups_length]
    ring
  rw [hl, psis_groups k (12 * k + 2) 0 0 x [2] (by omega) (by omega),
    if_neg (by omega)]
  rw [show 12 * k + 2 = (12 * k + 1) + 1 from by ring, psis_trunc]
  simp



theorem cont_loop_end (items : Nat → List Nat → Nat → List XSQLVar →
      Option (Int × List XSQLVar)) (st : Int) (f : Nat) (x : List XSQLVar)
    (resp reqs : List (List Nat)) (res : Int) (hres : res ≤ 0) :
    xsqlda_cont_loop items st (f + 1) resp x res reqs = some (x, resp, reqs) := by
  simp [xsqlda_cont_loop, hres]

theorem cont_loop_once (items : Nat → List Nat → Nat → List XSQLVar →
      Option (Int × List XSQLVar)) (st : Int) (x : List XSQLVar)
    (reqs : List (List Nat)) (res : Int) (hpos : 0 < res)
    (hitem : items 2 [1] 0 x = some (-1, x)) :
    xsqlda_cont_loop items st 2 [completion_response] x res reqs =
    some (x, [],
      reqs ++ [wp_op_info_sql st ([20, 2] ++ int16_to_bytes (u16_of_int res) ++ describe_vars13)]) := by
  rw [show (2 : Nat) = 1 + 1 from rfl]
  rw [xsqlda_cont_loop]
  rw [if_neg (by omega)]
  simp only [completion_response]
  norm_num
  rw [hitem]
  exact cont_loop_end items st 0 x [] _ (i16_of_int (-1)) (by decide)

theorem loop_break_async (st : Int) (f stmt_type : Nat) (x : List XSQLVar)
    (resp reqs : List (List Nat)) (N : Nat) (G : List Nat)
    (h3 : N < 32768) (h4 : N ≠ 1045) (h5 : N ≠ 1796) :
    xsqlda_loop_async st (f + 1) (u32_to_le_bytes N ++ G) stmt_type x resp reqs =
    some (stmt_type, x, reqs) := by
  have hshape : u32_to_le_bytes N ++ G =
      (N % 256) :: (N / 256) :: 0 :: 0 :: G := by
    simp [u32_to_le_bytes]
    omega
  rw [hshape]
  by_cases hb : N % 256 = 21
  · have hc : N / 256 ≠ 4 := by omega
    rw [hb]
    simp [xsqlda_loop_async, hc]
  · by_cases hb4 : N % 256 = 4
    · have hc : N / 256 ≠ 7 := by omega
      rw [hb4]
      simp [xsqlda_loop_async, hc]
    · simp [xsqlda_loop_async, hb, hb4]

theorem loop_break_sync (st : Int) (f stmt_type : Nat) (x : List XSQLVar)
    (resp reqs : List (List Nat)) (N : Nat) (G : List Nat)
    (h3 : N < 32768) (h5 : N ≠ 1796) :
    xsqlda_loop_sync st (f + 1) (u32_to_le_bytes N ++ G) stmt_type x resp reqs =
    some (stmt_type, x, reqs) := by
  have hshape : u32_to_le_bytes N ++ G =
      (N % 256) :: (N / 256) :: 0 :: 0 :: G := by
    simp [u32_to_le_bytes]
    omega
  rw [hshape]
  by_cases hb : N % 256 = 21
  · rw [hb]
    simp [xsqlda_loop_sync]
    omega
  · by_cases hb4 : N % 256 = 4
    · have hc : N / 256 ≠ 7 := by omega
      rw [hb4]
      simp [xsqlda_loop_sync, hc]
    · simp [xsqlda_loop_sync, hb, hb4]



theorem loop_break_async_fuel (st : Int) (f stmt_type : Nat) (x : List XSQLVar)
    (resp reqs : List (List Nat)) (N : Nat) (G : List Nat) (hf : f ≠ 0)
    (h3 : N < 32768) (h4 : N ≠ 1045) (h5 : N ≠ 1796) :
    xsqlda_loop_async st f (u32_to_le_bytes N ++ G) stmt_type x resp reqs =
    some (stmt_type, x, reqs) := by
  cases f with
  | zero => exact absurd rfl hf
  | succ m => exact loop_break_async st m stmt_type x resp reqs N G h3 h4 h5

theorem loop_break_sync_fuel (st : Int) (f stmt_type : Nat) (x : List XSQLVar)
    (resp reqs : List (List Nat)) (N : Nat) (G : List Nat) (hf : f ≠ 0)
    (h3 : N < 32768) (h5 : N ≠ 1796) :
    xsqlda_loop_sync st f (u32_to_le_bytes N ++ G) stmt_type x resp reqs =
    some (stmt_type, x, reqs) := by
  cases f with
  | zero => exact absurd rfl hf
  | succ m => exact loop_break_sync st m stmt_type x resp reqs N G h3 h5

theorem loop_select_async (st : Int) (m N k : Nat) (h1 : 1 ≤ k) (h2 : k ≤ N)
    (h3 : N < 32768) (h4 : N ≠ 1045) (h5 : N ≠ 1796) :
    xsqlda_loop_async st (m + 1 + 1)
      (4 :: 7 :: 4 :: 0 :: (u32_to_le_bytes N ++ (column_groups 0 k ++ [2])))
      0 [] [completion_response] [] =
    some (0, set_types (List.replicate N XSQLVar.new) 0 k,
      [wp_op_info_sql st ([20, 2] ++ int16_to_bytes k ++ describe_vars13)]) := by
  have hcl : bytes_to_uint32 (u32_to_le_bytes N) = N := by
    simp [u32_to_le_bytes, bytes_to_uint32, List.getD_cons_zero, List.getD_cons_succ]
    omega
  have hdr : List.drop 4 (u32_to_le_bytes N ++ (column_groups 0 k ++ [2])) =
      column_groups 0 k ++ [2] := by
    simp [u32_to_le_bytes]
  have hlenu : (u32_to_le_bytes N).length = 4 := by
    simp [u32_to_le_bytes]
  have hitems : parse_select_items_async ((column_groups 0 k).length + 1 + 1)
      (column_groups 0 k ++ [2]) 0 (List.replicate N XSQLVar.new) =
      some ((k : Int), set_types (List.replicate N XSQLVar.new) 0 k) := by
    have hps := psia_block k (List.replicate N XSQLVar.new) h1 (by simp [h2]) (by omega)
    rw [show (column_groups 0 k).length + 1 + 1 =
      (column_groups 0 k ++ [2]).length + 1 from by simp]
    exact hps
  have hi16 : i16_of_int (k : Int) = (k : Int) := by
    unfold i16_of_int
    omega
  have hu16 : u16_of_int (k : Int) = k := by
    unfold u16_of_int
    omega
  have hcont : ∀ X2 : List XSQLVar, xsqlda_cont_loop parse_select_items_async st 2
      [completion_response] X2 (i16_of_int (k : Int)) [] =
      some (X2, [],
        [wp_op_info_sql st ([20, 2] ++ int16_to_bytes k ++ describe_vars13)]) := by
    intro X2
    rw [hi16, cont_loop_once parse_select_items_async st X2 [] (k : Int) (by omega)
      (by simp [parse_select_items_async]), hu16]
    simp
  rw [xsqlda_loop_async]
  simp [hcl, hdr, hlenu, hitems, hcont]
  exact loop_break_async_fuel st _ 0 _ [] _ N _ (by omega) h3 h4 h5



theorem loop_select_sync (st : Int) (m N k : Nat) (h1 : 1 ≤ k) (h2 : k ≤ N)
    (h3 : N < 32768) (h5 : N ≠ 1796) :
    xsqlda_loop_sync st (m + 1 + 1)
      (4 :: 7 :: 4 :: 0 :: (u32_to_le_bytes N ++ (column_groups 0 k ++ [2])))
      0 [] [completion_response] [] =
    some (0, set_types (List.replicate N XSQLVar.new) 0 k,
      [wp_op_info_sql st ([20, 2] ++ int16_to_bytes k ++ describe_vars13)]) := by
  have hcl : bytes_to_uint32 (u32_to_le_bytes N) = N := by
    simp [u32_to_le_bytes, bytes_to_uint32, List.getD_cons_zero, List.getD_cons_succ]
    omega
  have hdr : List.drop 4 (u32_to_le_bytes N ++ (column_groups 0 k ++ [2])) =
      column_groups 0 k ++ [2] := by
    simp [u32_to_le_bytes]
  have hlenu : (u32_to_le_bytes N).length = 4 := by
    simp [u32_to_le_bytes]
  have hitems : parse_select_items_sync ((column_groups 0 k).length + 1 + 1)
      (column_groups 0 k ++ [2]) 0 (List.replicate N XSQLVar.new) =
      some ((k : Int), set_types (List.replicate N XSQLVar.new) 0 k) := by
    have hps := psis_block k (List.replicate N XSQLVar.new) h1 (by simp [h2]) (by omega)
    rw [show (column_groups 0 k).length + 1 + 1 =
      (column_groups 0 k ++ [2]).length + 1 from by simp]
    exact hps
  have hi16 : i16_of_int (k : Int) = (k : Int) := by
    unfold i16_of_int
    omega
  have hu16 : u16_of_int (k : Int) = k := by
    unfold u16_of_int
    omega
  have hcont : ∀ X2 : List XSQLVar, xsqlda_cont_loop parse_select_items_sync st 2
      [completion_response] X2 (i16_of_int (k : Int)) [] =
      some (X2, [],
        [wp_op_info_sql st ([20, 2] ++ int16_to_bytes k ++ describe_vars13)]) := by
    intro X2
    rw [hi16, cont_loop_once parse_select_items_sync st X2 [] (k : Int) (by omega)
      (by simp [parse_select_items_sync]), hu16]
    simp
  rw [xsqlda_loop_sync]
  simp [hcl, hdr, hlenu, hitems, hcont]
  exact loop_break_sync_fuel st _ 0 _ [] _ N _ (by omega) h3 h5

/-- Claim C7 (counterexample): after a describe response for 2 columns whose
variable stream is truncated at column 1, both engines issue one
continuation `op_info_sql` request whose items carry the `SQLDA_START`
index 1 — the index of the column already parsed — not 2 as the claim
states; and those two requests are distinct byte strings. -/
theorem c7_continuation_carries_current_index :
    (parse_xsqlda_sync 3 (truncated_describe_block 2 1) [completion_response]).map
        (fun r => r.2.2) =
      some [wp_op_info_sql 3 ([20, 2] ++ int16_to_bytes 1 ++ describe_vars13)] ∧
    (parse_xsqlda_async 3 (truncated_describe_block 2 1) [completion_response]).map
        (fun r => r.2.2) =
      some [wp_op_info_sql 3 ([20, 2] ++ int16_to_bytes 1 ++ describe_vars13)] ∧
    [wp_op_info_sql 3 ([20, 2] ++ int16_to_bytes 1 ++ describe_vars13)] ≠
      [wp_op_info_sql 3 ([20, 2] ++ int16_to_bytes 2 ++ describe_vars13)] := by
  decide

/-- Claim C7 (amended): for every canonical describe-response block
announcing `N` columns (`N < 32768`, excluding the two counts `1045` and
`1796` whose low bytes collide with the `STMT_TYPE`/`SELECT` record tags
of the outer loop), truncated after complete groups for columns `1..k`
(`1 ≤ k ≤ N`), both engines issue exactly one continuation `op_info_sql`
request — whose items carry the `SQLDA_START` index `k`, the column
already parsed, not `k + 1` — and the descriptor vector they finally
return has exactly `N` entries. -/
theorem c7_truncated_continuation (st : Int) (N k : Nat) (h1 : 1 ≤ k) (h2 : k ≤ N)
    (h3 : N < 32768) (h4 : N ≠ 1045) (h5 : N ≠ 1796) :
    parse_xsqlda_async st (truncated_describe_block N k) [completion_response] =
      some (0, set_types (List.replicate N XSQLVar.new) 0 k,
        [wp_op_info_sql st ([20, 2] ++ int16_to_bytes k ++ describe_vars13)]) ∧
    parse_xsqlda_sync st (truncated_describe_block N k) [completion_response] =
      some (0, set_types (List.replicate N XSQLVar.new) 0 k,
        [wp_op_info_sql st ([20, 2] ++ int16_to_bytes k ++ describe_vars13)]) ∧
    (set_types (List.replicate N XSQLVar.new) 0 k).length = N := by
  have hG : truncated_describe_block N k =
      4 :: 7 :: 4 :: 0 :: (u32_to_le_bytes N ++ (column_groups 0 k ++ [2])) := by
    simp [truncated_describe_block]
  have hf : (truncated_describe_block N k).length + 1 = (15 * k + 8) + 1 + 1 := by
    simp [truncated_describe_block, column_groups_length, u32_to_le_bytes]
  refine ⟨?_, ?_, ?_⟩
  · rw [parse_xsqlda_async, hf, hG]
    exact loop_select_async st (15 * k + 8) N k h1 h2 h3 h4 h5
  · rw [parse_xsqlda_sync, hf, hG]
    exact loop_select_sync st (15 * k + 8) N k h1 h2 h3 h5
  · simp [set_types_length]

/-- Witness for C7 (amended) at `N = 2`, `k = 1`. -/
theorem c7_truncated_continuation_witness :
    (1 ≤ 1 ∧ 1 ≤ 2 ∧ 2 < 32768 ∧ (2 : Nat) ≠ 1045 ∧ (2 : Nat) ≠ 1796) ∧
    (parse_xsqlda_async 3 (truncated_describe_block 2 1) [completion_response] =
      some (0, set_types (List.replicate 2 XSQLVar.new) 0 1,
        [wp_op_info_sql 3 ([20, 2] ++ int16_to_bytes 1 ++ describe_vars13)]) ∧
     parse_xsqlda_sync 3 (truncated_describe_block 2 1) [completion_response] =
      some (0, set_types (List.replicate 2 XSQLVar.new) 0 1,
        [wp_op_info_sql 3 ([20, 2] ++ int16_to_bytes 1 ++ describe_vars13)]) ∧
     (set_types (List.replicate 2 XSQLVar.new) 0 1).length = 2) :=
  ⟨by decide, c7_truncated_continuation 3 2 1 (by decide) (by decide) (by decide)
    (by decide) (by decide)⟩

/-! ## Lazy-send protocol-class decisions (claim C8) -/

/-- The lazy-send test in the blocking engine's `get_blob_segments`
(`wireprotocol.rs`): it compares the raw `accept_type` with
`PTYPE_LAZY_SEND`, without masking. -/
def sync_blob_lazy_decision (accept_type : Int) : Bool := accept_type == 5

/-- The lazy-send test in the cooperative engine's `get_blob_segments`
(`wireprotocol_async.rs`): `(accept_type & PTYPE_MASK) == PTYPE_LAZY_SEND`. -/
def async_blob_lazy_decision (accept_type : Nat) : Bool := accept_type &&& 255 == 5

/-- The lazy-send test guarding the deferred allocate-statement response
in `Connection::_execute` / `_prepare` (`connection.rs`). -/
def conn_alloc_lazy_decision (accept_type : Nat) : Bool := accept_type &&& 255 == 5

/-- The lazy-send test guarding the deferred free-statement response in
`Connection::_free_statement` (`connection.rs`). -/
def conn_free_lazy_decision (accept_type : Nat) : Bool := accept_type &&& 255 == 5

/-- C8 counterexample input: `accept_type = 0x105` (lazy-send class plus
the `COMPRESS` flag). The masked decisions see lazy-send, but the
blocking engine's blob decision compares unmasked and flips from `true`
(at `accept_type = 5`) to `false`, so a high flag bit changes its
outcome. -/
theorem c8_sync_blob_decision_unmasked :
    sync_blob_lazy_decision 5 = true ∧ sync_blob_lazy_decision 261 = false ∧
      async_blob_lazy_decision 261 = true ∧ conn_alloc_lazy_decision 261 = true ∧
      conn_free_lazy_decision 261 = true := by decide

/-- C8 (amended): the facade's allocate/free decisions and the
cooperative engine's blob decision mask `accept_type` with `0xFF`, so
adding any multiple of 256 (the flag bits) never changes their outcome;
the blocking engine's blob decision compares the raw value, and the
`COMPRESS` flag does change its outcome. -/
theorem c8_lazy_decisions_masking (t k : Nat) :
    async_blob_lazy_decision (t + 256 * k) = async_blob_lazy_decision t ∧
    conn_alloc_lazy_decision (t + 256 * k) = conn_alloc_lazy_decision t ∧
    conn_free_lazy_decision (t + 256 * k) = conn_free_lazy_decision t ∧
    sync_blob_lazy_decision (5 + 256) ≠ sync_blob_lazy_decision 5 := by
  have hmask : (t + 256 * k) &&& 255 = t &&& 255 := by
    rw [Nat.and_pow_two_sub_one_eq_mod t 8, Nat.and_pow_two_sub_one_eq_mod (t + 256 * k) 8]
    omega
  refine ⟨?_, ?_, ?_, by decide⟩ <;>
    simp only [async_blob_lazy_decision, conn_alloc_lazy_decision, conn_free_lazy_decision,
      hmask]

/-! ## Destructor cleanup (claim C9) -/

/-- `WireProtocol::op_free_statement` request bytes. -/
def wp_op_free_statement (stmt_handle mode : Int) : List Nat :=
  ubint32_to_bytes 67 ++ ubint32_to_bytes (u32_of_i32 stmt_handle) ++
    ubint32_to_bytes (u32_of_i32 mode)

/-- `WireProtocol::op_detach` request bytes. -/
def wp_op_detach (db_handle : Int) : List Nat :=
  ubint32_to_bytes 21 ++ ubint32_to_bytes (u32_of_i32 db_handle)

/-- `DSQL_DROP` (`statement.rs`). -/
def DSQL_DROP : Int := 2

/-- The request sent by `Drop for Statement`:
`conn._free_statement(stmt_handle, DSQL_DROP)`. -/
def statement_drop_request (stmt_handle : Int) : List Nat :=
  wp_op_free_statement stmt_handle DSQL_DROP

/-- Outcome of a destructor body: it either completes, or the process
aborts because a `Result` was `unwrap`ped on an error. -/
inductive CleanupOutcome where
  | completes : CleanupOutcome
  | aborts : CleanupOutcome
deriving DecidableEq

/-- `Connection::_free_statement` (the body run by the statement's
destructor): `op_free_statement(..).unwrap()`, then under lazy-send only
bump the counter, otherwise `op_response().unwrap()`. `send_ok` is
whether the request write succeeded, `response_ok` whether `op_response`
returned `Ok`. -/
def connection_free_statement_cleanup (send_ok : Bool) (accept_type : Nat)
    (response_ok : Bool) : CleanupOutcome :=
  if send_ok = false then CleanupOutcome.aborts
  else if accept_type &&& 255 == 5 then CleanupOutcome.completes
  else if response_ok then CleanupOutcome.completes
  else CleanupOutcome.aborts

/-- `Drop for WireProtocol` (blocking engine): `op_detach().unwrap()`
then `let _ = self.op_response()`. -/
def wire_protocol_drop_cleanup (send_ok response_ok : Bool) : CleanupOutcome :=
  if send_ok = false then CleanupOutcome.aborts
  else
    let _ := response_ok
    CleanupOutcome.completes

/-- `Drop for WireProtocolAsync`: both results discarded with `let _`. -/
def wire_protocol_async_drop_cleanup (send_ok response_ok : Bool) : CleanupOutcome :=
  let _ := send_ok
  let _ := response_ok
  CleanupOutcome.completes

/-- C9 counterexample input: a server status-vector error in the cleanup
response (`send_ok = true`, non-lazy session, `response_ok = false`)
makes the statement destructor panic via `.unwrap()` instead of being
swallowed. -/
theorem c9_statement_drop_panics_on_response_error :
    connection_free_statement_cleanup true 0 false = CleanupOutcome.aborts := by decide

/-- C9 (amended): dropping a statement sends `op_free_statement` with the
`DROP` mode and dropping the engine sends `op_detach`; the blocking
engine's destructor swallows an error in the cleanup response (though it
panics if the detach write itself fails), the cooperative engine's
destructor swallows both, but the statement destructor `unwrap`s and
panics on a cleanup-response error on a non-lazy session. -/
theorem c9_drop_cleanup_behavior (stmt db : Int) (t : Nat) (r : Bool)
    (hlazy : t &&& 255 ≠ 5) :
    statement_drop_request stmt = wp_op_free_statement stmt 2 ∧
    wp_op_detach db = ubint32_to_bytes 21 ++ ubint32_to_bytes (u32_of_i32 db) ∧
    wire_protocol_drop_cleanup true r = CleanupOutcome.completes ∧
    wire_protocol_drop_cleanup false r = CleanupOutcome.aborts ∧
    wire_protocol_async_drop_cleanup false false = CleanupOutcome.completes ∧
    connection_free_statement_cleanup true t false = CleanupOutcome.aborts := by
  refine ⟨rfl, rfl, by simp [wire_protocol_drop_cleanup], by simp [wire_protocol_drop_cleanup],
    rfl, ?_⟩
  simp only [connection_free_statement_cleanup]
  rw [if_neg (by simp), if_neg (by simpa using hlazy), if_neg (by simp)]

/-- C9 witness: the cleanup behavior at concrete handles with
`accept_type = 3` (batch-send class). -/
theorem c9_drop_cleanup_behavior_witness :
    (3 : Nat) &&& 255 ≠ 5 ∧
      statement_drop_request 11 = wp_op_free_statement 11 2 ∧
      wire_protocol_drop_cleanup true false = CleanupOutcome.completes ∧
      connection_free_statement_cleanup true 3 false = CleanupOutcome.aborts := by
  have h := c9_drop_cleanup_behavior 11 1 3 false (by decide)
  exact ⟨by decide, h.1, h.2.2.1, h.2.2.2.2.2⟩

end Firebirust
